import Mathlib

/-!
Verification development for the polyglot-persistence food-ordering demo
(Express + MariaDB + MongoDB backend).

Shallow embedding conventions:

* Machine integers (row ids, quantities) are `Nat`; money is modelled in
  integer cents (`Nat`), matching the code's `priceToCents` discipline
  (`Math.round(n * 100)`); DECIMAL(10,2) columns and the JSON money numbers
  produced by `centsToAmount` are in bijection with their cent values, so
  "equal to the cent" is equality of these `Nat`s.
* Timestamps (`new Date()`, DATETIME) are abstract `Nat` milliseconds; the
  calendar-day bucketing used by both report variants (`DATE(created_at)`
  and `$dateToString "%Y-%m-%d"`) is the shared `dayOf` function.
* Each HTTP operation is a pure function `State -> args -> Except ApiErr
  (State' × output)`.  `withTx` rollback / MongoDB single-document updates
  mean an error leaves the store untouched, which the `Except` shape
  captures: an `.error` result carries no successor state.
* SQL `LIMIT 1` natural-key lookups become `List.find?`; SQL `UPDATE ...
  WHERE k = v` becomes a `List.map` guarded by the key; uniqueness
  constraints of the schema (PRIMARY KEY / UNIQUE columns, and the unique
  Mongo indexes created by `ensureMongoIndexes`) appear as explicit `Nodup`
  hypotheses where a proof needs them.
-/

namespace FoodDemo

/-- Error taxonomy of the backend: `badRequest` (400), `notFound` (404),
`conflict` (409), `internal` (500), mirroring the `badRequest`/`notFound`/
`conflict` helpers and plain `Error` throws in the route files. -/
inductive ApiErr where
  | badRequest : String → ApiErr
  | notFound : String → ApiErr
  | conflict : String → ApiErr
  | internal : String → ApiErr
deriving DecidableEq

/-- HTTP status attached by the error middleware in server.js. -/
def ApiErr.statusCode : ApiErr → Nat
  | .badRequest _ => 400
  | .notFound _ => 404
  | .conflict _ => 409
  | .internal _ => 500

/-! ## Relational rows (db/mariadb/schema.sql) -/

/-- Row of `restaurant` (restaurant_id PK, name, address). -/
structure RestaurantRow where
  restaurantId : Nat
  name : String
  address : String
deriving DecidableEq

/-- Row of `person` (person_id PK, name, email UNIQUE, phone NULL). -/
structure PersonRow where
  personId : Nat
  name : String
  email : String
  phone : Option String
deriving DecidableEq

/-- Row of `customer` (customer_id PK = person id). -/
structure CustomerRow where
  customerId : Nat
  defaultAddress : Option String
  preferredPaymentMethod : Option String
deriving DecidableEq

/-- Row of `rider` (rider_id PK = person id, rating DECIMAL(2,1) NULL,
modelled in tenths). -/
structure RiderRow where
  riderId : Nat
  vehicleType : String
  rating : Option Nat
deriving DecidableEq

/-- Row of `menu_item` (menu_item_id PK, restaurant_id FK, price in cents). -/
structure MenuItemRow where
  menuItemId : Nat
  restaurantId : Nat
  name : String
  description : Option String
  priceCents : Nat
deriving DecidableEq

/-- Row of `order` (order_id PK, total_amount in cents). -/
structure OrderRow where
  orderId : Nat
  customerId : Nat
  restaurantId : Nat
  createdAt : Nat
  status : String
  totalAmountCents : Nat
deriving DecidableEq

/-- Row of `order_item` (order_item_id PK, order_id FK, menu_item_id FK,
unit_price in cents — a snapshot taken at order time). -/
structure OrderItemRow where
  orderItemId : Nat
  orderId : Nat
  menuItemId : Nat
  quantity : Nat
  unitPriceCents : Nat
deriving DecidableEq

/-- Row of `payment` (payment_id PK, order_id UNIQUE, paid_at NULL). -/
structure PaymentRow where
  paymentId : Nat
  orderId : Nat
  amountCents : Nat
  method : String
  paidAt : Option Nat
deriving DecidableEq

/-- Row of `delivery` (delivery_id PK, order_id UNIQUE, rider_id NULL,
assigned_at NULL). -/
structure DeliveryRow where
  deliveryId : Nat
  orderId : Nat
  riderId : Option Nat
  assignedAt : Option Nat
  deliveryStatus : String
deriving DecidableEq

/-- The whole relational database as lists of rows (row order is the
engine's unspecified scan order; queries that rely on an order say so
with an explicit sort). -/
structure SqlState where
  restaurants : List RestaurantRow
  persons : List PersonRow
  customers : List CustomerRow
  riders : List RiderRow
  menuItems : List MenuItemRow
  orders : List OrderRow
  orderItems : List OrderItemRow
  payments : List PaymentRow
  deliveries : List DeliveryRow
deriving DecidableEq

/-! ## Document collections (Mongo) -/

/-- `people` sub-document for customers. -/
structure CustomerSub where
  defaultAddress : Option String
  preferredPaymentMethod : Option String
deriving DecidableEq

/-- `people` sub-document for riders. -/
structure RiderSub where
  vehicleType : String
  rating : Option Nat
deriving DecidableEq

/-- Document of the `people` collection (discriminated union, `type` is
"rider" / "customer" / "person"). -/
structure PersonDoc where
  personId : Nat
  type : String
  name : String
  email : String
  phone : Option String
  customer : Option CustomerSub
  rider : Option RiderSub
deriving DecidableEq

/-- Restaurant snapshot embedded in an order document. -/
structure RestaurantSnap where
  restaurantId : Nat
  name : String
  address : String
deriving DecidableEq

/-- Customer snapshot embedded in an order document. -/
structure CustomerSnap where
  personId : Nat
  name : String
  email : String
deriving DecidableEq

/-- Rider snapshot embedded in a delivery sub-document. -/
structure RiderSnap where
  personId : Nat
  name : String
  email : String
  vehicleType : Option String
  rating : Option Nat
deriving DecidableEq

/-- Order-item entry of an order document (`name` is null when migration
found no menu row for the snapshotted id). -/
structure OrderItemDoc where
  menuItemId : Option Nat
  name : Option String
  quantity : Nat
  unitPriceCents : Nat
deriving DecidableEq

/-- Payment sub-document (`paymentId` null for Mongo-native payments). -/
structure PaymentDoc where
  paymentId : Option Nat
  amountCents : Nat
  method : String
  paidAt : Option Nat
deriving DecidableEq

/-- Delivery sub-document (`rider` null for migrated unassigned rows). -/
structure DeliveryDoc where
  deliveryId : Nat
  deliveryStatus : String
  assignedAt : Option Nat
  rider : Option RiderSnap
deriving DecidableEq

/-- Document of the `orders` collection. -/
structure OrderDoc where
  orderId : Nat
  createdAt : Nat
  status : String
  totalAmountCents : Nat
  restaurant : Option RestaurantSnap
  customer : Option CustomerSnap
  orderItems : List OrderItemDoc
  payment : Option PaymentDoc
  delivery : Option DeliveryDoc
deriving DecidableEq

/-- The `meta` collection's single `_id:"migration"` document. -/
structure MigrationMarker where
  source : String
  lastMigrationAt : Nat
  migratedRestaurants : Nat
  migratedPeople : Nat
  migratedOrders : Nat
deriving DecidableEq

/-- The Mongo database: three working collections plus the marker. -/
structure MongoState where
  restaurants : List RestaurantRow
  people : List PersonDoc
  orders : List OrderDoc
  marker : Option MigrationMarker
deriving DecidableEq

/-! ## Small helpers shared by the routes -/

/-- Next AUTO_INCREMENT value, modelled as max existing id + 1 (always a
fresh id, which is all the code relies on). -/
def nextId (ids : List Nat) : Nat := ids.foldr max 0 + 1

/-- Optional [from, to] filter on a creation timestamp
(`o.created_at >= from AND o.created_at <= to`, each bound optional). -/
def inRange (fromDate toDate : Option Nat) (t : Nat) : Bool :=
  (match fromDate with
    | some f => decide (f ≤ t)
    | none => true)
  && (match toDate with
    | some u => decide (t ≤ u)
    | none => true)

/-- Calendar-day bucket shared by `DATE(o.created_at)` and
`$dateToString "%Y-%m-%d"` (ms per day). -/
def dayOf (t : Nat) : Nat := t / 86400000

/-! ## POST /student1/sql/pay (routes/student1.js) -/

/-- Payment row as serialised by the pay endpoints. -/
structure PaymentOut where
  paymentId : Nat
  orderId : Nat
  amountCents : Nat
  method : String
  paidAt : Option Nat
deriving DecidableEq

/-- POST /student1/sql/pay.  Inside one transaction: look the order up
(404 if absent), look the existing payment up, throw 409 when its
`paid_at` is already set, otherwise INSERT a fresh payment or UPDATE the
pending one (`paid_at = IFNULL(paid_at, now)`), then advance the order
status `created -> preparing`.  The thrown errors abort the transaction,
so the `.error` results carry no state. -/
def sqlPay (s : SqlState) (orderId : Nat) (paymentMethod : String) (now : Nat) :
    Except ApiErr (SqlState × PaymentOut) :=
  if paymentMethod = "" then
    Except.error (ApiErr.badRequest "paymentMethod is required")
  else
    match s.orders.find? (fun o => o.orderId = orderId) with
    | none => Except.error (ApiErr.notFound "order not found")
    | some o =>
      let existing := s.payments.find? (fun p => p.orderId = orderId)
      if (existing.bind (fun p => p.paidAt)).isSome then
        Except.error (ApiErr.conflict "order already paid")
      else
        let payments' :=
          match existing with
          | none =>
              s.payments ++
                [{ paymentId := nextId (s.payments.map (fun p => p.paymentId)),
                   orderId := orderId, amountCents := o.totalAmountCents,
                   method := paymentMethod, paidAt := some now }]
          | some _ =>
              s.payments.map (fun q =>
                if q.orderId = orderId then
                  { q with amountCents := o.totalAmountCents,
                           method := paymentMethod,
                           paidAt := some (q.paidAt.getD now) }
                else q)
        let orders' := s.orders.map (fun q =>
          if q.orderId = orderId then
            { q with status := if q.status = "created" then "preparing" else q.status }
          else q)
        let s' : SqlState := { s with payments := payments', orders := orders' }
        match s'.payments.find? (fun p => p.orderId = orderId) with
        | none => Except.error (ApiErr.internal "payment row missing")
        | some outRow =>
            Except.ok (s',
              { paymentId := outRow.paymentId, orderId := outRow.orderId,
                amountCents := outRow.amountCents, method := outRow.method,
                paidAt := outRow.paidAt })

/-! ## POST /student1/mongo/pay (routes/student1.js) -/

/-- Response of POST /student1/mongo/pay. -/
structure MongoPayOut where
  orderId : Nat
  status : String
  payment : Option PaymentDoc
deriving DecidableEq

/-- The `$set` pipeline of POST /student1/mongo/pay applied to one order
document: status `created -> preparing`, and a rebuilt `payment` whose
`paymentId`/`method`/`paidAt` use `$ifNull` (keep when present) while
`amount` is unconditionally `$totalAmount`. -/
def mongoPayStep (paymentMethod : String) (now : Nat) (d : OrderDoc) : OrderDoc :=
  { d with
    status := if d.status = "created" then "preparing" else d.status,
    payment := some
      { paymentId := d.payment.bind (fun p => p.paymentId),
        amountCents := d.totalAmountCents,
        method := (d.payment.map (fun p => p.method)).getD paymentMethod,
        paidAt := some ((d.payment.bind (fun p => p.paidAt)).getD now) } }

/-- POST /student1/mongo/pay: one `updateOne` with the pipeline above on
the document matching `orderId` (unique index `idx_orders_orderId_unique`,
so "the first match" is the only match), 404 when nothing matched, then a
re-read that fails 500 if `payment.paidAt` is still unset. -/
def mongoPay (m : MongoState) (orderId : Nat) (paymentMethod : String) (now : Nat) :
    Except ApiErr (MongoState × MongoPayOut) :=
  if paymentMethod = "" then
    Except.error (ApiErr.badRequest "paymentMethod is required")
  else if (m.orders.all (fun d => d.orderId ≠ orderId)) then
    Except.error (ApiErr.notFound "order not found in mongo (did you migrate?)")
  else
    let m' : MongoState := { m with orders := m.orders.map (fun d =>
      if d.orderId = orderId then mongoPayStep paymentMethod now d else d) }
    match m'.orders.find? (fun d => d.orderId = orderId) with
    | none => Except.error (ApiErr.internal "payment update failed")
    | some updated =>
      if (updated.payment.bind (fun p => p.paidAt)).isNone then
        Except.error (ApiErr.internal "payment update failed")
      else
        Except.ok (m', { orderId := updated.orderId, status := updated.status,
                         payment := updated.payment })

/-! ## POST /student2/{mode}/assign_delivery (routes/student2.js) -/

/-- Delivery row as serialised by the SQL assign endpoint. -/
structure DeliveryOut where
  deliveryId : Nat
  orderId : Nat
  riderEmail : String
  deliveryStatus : String
  assignedAt : Option Nat
deriving DecidableEq

/-- SELECT of the rider by email (`FROM rider JOIN person ... WHERE
p.email = ? LIMIT 1`): first person with that email that has a rider row. -/
def findRiderByEmail (s : SqlState) (riderEmail : String) : Option PersonRow :=
  s.persons.find? (fun p =>
    p.email = riderEmail && s.riders.any (fun r => r.riderId = p.personId))

/-- POST /student2/sql/assign_delivery.  Resolve rider (404) and order
(404); INSERT a delivery with `assigned_at = now` when none exists,
otherwise UPDATE rider/status and keep the existing non-null
`assigned_at` (first assignment wins); finally re-read the row joined to
the rider's person for the response. -/
def sqlAssignDelivery (s : SqlState) (riderEmail : String) (orderId : Nat)
    (deliveryStatus : String) (now : Nat) : Except ApiErr (SqlState × DeliveryOut) :=
  if riderEmail = "" then
    Except.error (ApiErr.badRequest "riderEmail is required")
  else if deliveryStatus = "" then
    Except.error (ApiErr.badRequest "deliveryStatus is required")
  else
    match findRiderByEmail s riderEmail with
    | none => Except.error (ApiErr.notFound "rider not found")
    | some riderPerson =>
      if (s.orders.all (fun o => o.orderId ≠ orderId)) then
        Except.error (ApiErr.notFound "order not found")
      else
        let riderId := riderPerson.personId
        let deliveries' :=
          match s.deliveries.find? (fun d => d.orderId = orderId) with
          | none =>
              s.deliveries ++
                [{ deliveryId := nextId (s.deliveries.map (fun d => d.deliveryId)),
                   orderId := orderId, riderId := some riderId,
                   assignedAt := some now, deliveryStatus := deliveryStatus }]
          | some ex =>
              s.deliveries.map (fun d =>
                if d.orderId = orderId then
                  { d with riderId := some riderId,
                           assignedAt := some (ex.assignedAt.getD now),
                           deliveryStatus := deliveryStatus }
                else d)
        let s' : SqlState := { s with deliveries := deliveries' }
        match s'.deliveries.find? (fun d => d.orderId = orderId) with
        | none => Except.error (ApiErr.internal "delivery row missing")
        | some outRow =>
          match s'.persons.find? (fun p =>
              some p.personId = outRow.riderId
                && s'.riders.any (fun r => r.riderId = p.personId)) with
          | none => Except.error (ApiErr.internal "rider row missing")
          | some outRider =>
              Except.ok (s',
                { deliveryId := outRow.deliveryId, orderId := outRow.orderId,
                  riderEmail := outRider.email,
                  deliveryStatus := outRow.deliveryStatus,
                  assignedAt := outRow.assignedAt })

/-- Rider snapshot embedded by the Mongo assign endpoint (truthy
`rider.rider?.vehicleType`, null-checked `rider.rider?.rating`). -/
def riderSnapOf (p : PersonDoc) : RiderSnap :=
  { personId := p.personId, name := p.name, email := p.email,
    vehicleType := p.rider.map (fun r => r.vehicleType),
    rating := p.rider.bind (fun r => r.rating) }

/-- The `$set` pipeline of POST /student2/mongo/assign_delivery applied to
one order document: `$mergeObjects` of the existing delivery (or `{}`)
with a new sub-document whose `deliveryId` and `assignedAt` use `$ifNull`
(keep when present, else `$orderId` / `$$NOW`) while `deliveryStatus` and
`rider` are overwritten. -/
def mongoAssignStep (snap : RiderSnap) (deliveryStatus : String) (now : Nat)
    (d : OrderDoc) : OrderDoc :=
  { d with delivery := some ({
      deliveryId := (d.delivery.map (fun e => e.deliveryId)).getD d.orderId,
      deliveryStatus := deliveryStatus,
      assignedAt := some ((d.delivery.bind (fun e => e.assignedAt)).getD now),
      rider := some snap }) }

/-- POST /student2/mongo/assign_delivery: resolve the rider in `people`
(type "rider", 404), run the pipeline update on the order matching
`orderId` (unique index), 404 when nothing matched. -/
def mongoAssignDelivery (m : MongoState) (riderEmail : String) (orderId : Nat)
    (deliveryStatus : String) (now : Nat) : Except ApiErr MongoState :=
  if riderEmail = "" then
    Except.error (ApiErr.badRequest "riderEmail is required")
  else if deliveryStatus = "" then
    Except.error (ApiErr.badRequest "deliveryStatus is required")
  else
    match m.people.find? (fun p => p.type = "rider" && p.email = riderEmail) with
    | none => Except.error (ApiErr.notFound "rider not found")
    | some rider =>
      if (m.orders.all (fun d => d.orderId ≠ orderId)) then
        Except.error (ApiErr.notFound "order not found in mongo (did you migrate?)")
      else
        Except.ok ({ m with orders := m.orders.map (fun d =>
          if d.orderId = orderId then
            mongoAssignStep (riderSnapOf rider) deliveryStatus now d
          else d) })

/-! ## Reset and health (services/importReset.js, server.js) -/

/-- `clearMongoAfterSqlReset`: deleteMany on the three working collections
and deleteOne on the `meta` migration marker. -/
def clearMongoAfterSqlReset (_m : MongoState) : MongoState :=
  { restaurants := [], people := [], orders := [], marker := none }

/-- GET /api/health active-mode inference: "mongo" iff the migration
marker exists (its `lastMigrationAt` Date is always truthy) and the
`orders` collection count is positive, otherwise "sql". -/
def healthActiveMode (m : MongoState) : String :=
  if m.marker.isSome ∧ 0 < m.orders.length then "mongo" else "sql"

/-! ## POST /student1/sql/place_order (routes/student1.js) -/

/-- One entry of the request's `items` array after the endpoint's
normalisation of empty strings to null (`menuItemId` or
`menuItemName`/`name`; quantity as sent, validated by `toPositiveInt`). -/
structure PlaceItemReq where
  menuItemId : Option Nat
  menuItemName : Option String
  quantity : Int
deriving DecidableEq

/-- Order item as serialised in the place-order response. -/
structure PlacedItemOut where
  menuItemId : Nat
  name : String
  quantity : Nat
  unitPriceCents : Nat
deriving DecidableEq

/-- Order as serialised in the SQL place-order response. -/
structure PlacedOrderOut where
  orderId : Nat
  createdAt : Nat
  status : String
  totalAmountCents : Nat
  restaurantName : String
  restaurantAddress : String
  customerName : String
  customerEmail : String
  orderItems : List PlacedItemOut
deriving DecidableEq

/-- SELECT of the customer by email (`FROM customer JOIN person ... WHERE
p.email = ? LIMIT 1`): first person with that email that has a customer
row. -/
def findCustomerByEmail (s : SqlState) (customerEmail : String) : Option PersonRow :=
  s.persons.find? (fun p =>
    p.email = customerEmail && s.customers.any (fun c => c.customerId = p.personId))

/-- Per-item resolution of the SQL place-order loop: by id the row must
match both `menu_item_id` and the order's `restaurant_id` (404 otherwise);
by name the lookup is scoped to the restaurant and an ambiguous name is a
400; missing both keys is a 400. -/
def resolveMenuItem (s : SqlState) (restaurantId : Nat) (idx : Nat)
    (it : PlaceItemReq) : Except ApiErr MenuItemRow :=
  match it.menuItemId with
  | some mid =>
      match s.menuItems.find? (fun m =>
          m.menuItemId = mid && m.restaurantId = restaurantId) with
      | some m => Except.ok m
      | none => Except.error (ApiErr.notFound
          ("menu item not found for items[" ++ toString idx ++ "]"))
  | none =>
      match it.menuItemName with
      | none => Except.error (ApiErr.badRequest
          ("items[" ++ toString idx ++ "] must include menuItemId or menuItemName"))
      | some nm =>
          match s.menuItems.filter (fun m =>
              m.restaurantId = restaurantId && m.name = nm) with
          | [] => Except.error (ApiErr.notFound
              ("menu item not found for items[" ++ toString idx ++ "]"))
          | [m] => Except.ok m
          | _ :: _ :: _ => Except.error (ApiErr.badRequest
              ("menu item name is not unique for items[" ++ toString idx ++
               "] (use menuItemId instead)"))

/-- The item loop of the SQL place-order transaction: validate the
quantity, resolve the menu row, recurse; the first failure aborts the
whole transaction. -/
def processItems (s : SqlState) (restaurantId : Nat) :
    Nat → List PlaceItemReq → Except ApiErr (List (MenuItemRow × Nat))
  | _, [] => Except.ok []
  | idx, it :: rest =>
      if it.quantity ≤ 0 then
        Except.error (ApiErr.badRequest
          ("items[" ++ toString idx ++ "].quantity must be a positive integer"))
      else
        match resolveMenuItem s restaurantId idx it with
        | Except.error e => Except.error e
        | Except.ok m =>
          match processItems s restaurantId (idx + 1) rest with
          | Except.error e => Except.error e
          | Except.ok tail => Except.ok ((m, it.quantity.toNat) :: tail)

/-- POST /student1/sql/place_order.  Validate the body, resolve customer
and restaurant by natural key (404), insert the order with total 0,
resolve every item inside one transaction summing line totals in cents
(`priceToCents(unitPrice) * quantity`), insert the item rows, then update
the order's `total_amount` to the computed sum. -/
def sqlPlaceOrder (s : SqlState) (customerEmail restaurantName : String)
    (items : List PlaceItemReq) (now : Nat) :
    Except ApiErr (SqlState × PlacedOrderOut) :=
  if customerEmail = "" then
    Except.error (ApiErr.badRequest "customerEmail is required")
  else if restaurantName = "" then
    Except.error (ApiErr.badRequest "restaurantName is required")
  else if items.isEmpty then
    Except.error (ApiErr.badRequest "items must be a non-empty array")
  else
    match findCustomerByEmail s customerEmail with
    | none => Except.error (ApiErr.notFound "customer not found")
    | some cust =>
      match s.restaurants.find? (fun r => r.name = restaurantName) with
      | none => Except.error (ApiErr.notFound "restaurant not found")
      | some rest =>
        let orderId := nextId (s.orders.map (fun o => o.orderId))
        match processItems s rest.restaurantId 0 items with
        | Except.error e => Except.error e
        | Except.ok resolved =>
          let totalCents := (resolved.map (fun rq => rq.1.priceCents * rq.2)).sum
          let baseItemId := nextId (s.orderItems.map (fun oi => oi.orderItemId))
          let newItemRows : List OrderItemRow := resolved.enum.map (fun iq =>
            { orderItemId := baseItemId + iq.1, orderId := orderId,
              menuItemId := iq.2.1.menuItemId, quantity := iq.2.2,
              unitPriceCents := iq.2.1.priceCents })
          let newOrder : OrderRow :=
            { orderId := orderId, customerId := cust.personId,
              restaurantId := rest.restaurantId, createdAt := now,
              status := "created", totalAmountCents := totalCents }
          Except.ok ({ s with orders := s.orders ++ [newOrder],
                              orderItems := s.orderItems ++ newItemRows },
            { orderId := orderId, createdAt := now, status := "created",
              totalAmountCents := totalCents,
              restaurantName := restaurantName,
              restaurantAddress := rest.address,
              customerName := cust.name, customerEmail := customerEmail,
              orderItems := resolved.map (fun rq =>
                { menuItemId := rq.1.menuItemId, name := rq.1.name,
                  quantity := rq.2, unitPriceCents := rq.1.priceCents }) })

/-! ## POST /student1/mongo/place_order (routes/student1.js) -/

/-- One entry of the Mongo place-order `items` array (document mode
trusts the caller-supplied name and unit price; a missing/non-numeric
price is rejected by `priceToCents`, modelled as `none`). -/
structure MongoItemReq where
  menuItemId : Option Nat
  name : Option String
  quantity : Int
  unitPriceCents : Option Nat
deriving DecidableEq

/-- The `items.map` normalisation of the Mongo place-order endpoint:
quantity must be a positive integer, the unit price must parse
(`priceToCents`), the name is required; the result is the embedded
order-item list. -/
def normalizeItems : Nat → List MongoItemReq → Except ApiErr (List OrderItemDoc)
  | _, [] => Except.ok []
  | idx, it :: rest =>
      if it.quantity ≤ 0 then
        Except.error (ApiErr.badRequest
          ("items[" ++ toString idx ++ "].quantity must be a positive integer"))
      else
        match it.unitPriceCents with
        | none => Except.error (ApiErr.badRequest
            ("items[" ++ toString idx ++ "].unitPrice must be a non-negative number"))
        | some cents =>
            match it.name with
            | none => Except.error (ApiErr.badRequest
                ("items[" ++ toString idx ++ "].name is required"))
            | some nm =>
                match normalizeItems (idx + 1) rest with
                | Except.error e => Except.error e
                | Except.ok tail =>
                    Except.ok ({ menuItemId := it.menuItemId, name := some nm,
                                 quantity := it.quantity.toNat,
                                 unitPriceCents := cents } :: tail)

/-- POST /student1/mongo/place_order.  Validate the body, find the
customer in `people` with `type = "customer"` by email (404) and the
restaurant by name (404), normalise the items summing
`priceToCents(unitPrice) * quantity`, allocate `orderId` as max existing
id + 1 (the duplicate-key retry loop never retries in the sequential
model) and insert one self-contained order document. -/
def mongoPlaceOrder (m : MongoState) (customerEmail restaurantName : String)
    (items : List MongoItemReq) (now : Nat) :
    Except ApiErr (MongoState × OrderDoc) :=
  if customerEmail = "" then
    Except.error (ApiErr.badRequest "customerEmail is required")
  else if restaurantName = "" then
    Except.error (ApiErr.badRequest "restaurantName is required")
  else if items.isEmpty then
    Except.error (ApiErr.badRequest "items must be a non-empty array")
  else
    match m.people.find? (fun p =>
        p.type = "customer" && p.email = customerEmail) with
    | none => Except.error (ApiErr.notFound "customer not found")
    | some customer =>
      match m.restaurants.find? (fun r => r.name = restaurantName) with
      | none => Except.error (ApiErr.notFound "restaurant not found")
      | some restaurant =>
        match normalizeItems 0 items with
        | Except.error e => Except.error e
        | Except.ok norm =>
          let totalCents := (norm.map (fun i => i.unitPriceCents * i.quantity)).sum
          let doc : OrderDoc :=
            { orderId := nextId (m.orders.map (fun d => d.orderId)),
              createdAt := now,
              status := "created", totalAmountCents := totalCents,
              restaurant := some { restaurantId := restaurant.restaurantId,
                                   name := restaurant.name,
                                   address := restaurant.address },
              customer := some { personId := customer.personId,
                                 name := customer.name,
                                 email := customer.email },
              orderItems := norm, payment := none, delivery := none }
          Except.ok ({ m with orders := m.orders ++ [doc] }, doc)

/-! ## Migration transformer (services/migrateSqlToMongo.js) -/

/-- SQL `ORDER BY` on a numeric key (stable sort). -/
def sortByKey {α : Type} (f : α → Nat) (l : List α) : List α :=
  List.insertionSort (fun a b => f a ≤ f b) l

/-- One row of the `peopleBase` LEFT JOIN transformed into a `people`
document: `type` is "rider" when a rider row exists (rider wins over
customer), else "customer" when a customer row exists, else "person";
both sub-documents are populated independently of `type`. -/
def personDocOfRow (s : SqlState) (p : PersonRow) : PersonDoc :=
  let c := s.customers.find? (fun c => c.customerId = p.personId)
  let r := s.riders.find? (fun r => r.riderId = p.personId)
  { personId := p.personId,
    type := if r.isSome then "rider" else if c.isSome then "customer" else "person",
    name := p.name, email := p.email, phone := p.phone,
    customer := c.map (fun c =>
      { defaultAddress := c.defaultAddress,
        preferredPaymentMethod := c.preferredPaymentMethod }),
    rider := r.map (fun r => { vehicleType := r.vehicleType, rating := r.rating }) }

/-- The migrated `people` collection: every person row in person_id order,
transformed (LEFT JOIN customer, LEFT JOIN rider — both PK lookups). -/
def migratedPeople (s : SqlState) : List PersonDoc :=
  (sortByKey (fun p => p.personId) s.persons).map (personDocOfRow s)

/-- `personById.get` over the transformed people (a JS Map keyed by
personId; with the PK unique the first match is the only match). -/
def findPersonDoc (s : SqlState) (pid : Nat) : Option PersonDoc :=
  (migratedPeople s).find? (fun p => p.personId = pid)

/-- `itemsByOrderId` entry for one order: the order_item rows in
order_item_id scan order, each joined to `menuItemById` for the item
name (null when the menu row is gone). -/
def orderItemDocsFor (s : SqlState) (orderId : Nat) : List OrderItemDoc :=
  ((sortByKey (fun oi => oi.orderItemId) s.orderItems).filter
      (fun oi => oi.orderId = orderId)).map (fun oi =>
    { menuItemId := some oi.menuItemId,
      name := (s.menuItems.find? (fun m => m.menuItemId = oi.menuItemId)).map
        (fun m => m.name),
      quantity := oi.quantity, unitPriceCents := oi.unitPriceCents })

/-- One row of `ordersBase` (order LEFT JOIN payment LEFT JOIN delivery,
both 1:1 by the UNIQUE order_id constraints) transformed into an order
document with restaurant/customer/rider snapshots resolved by id. -/
def orderDocOfRow (s : SqlState) (o : OrderRow) : OrderDoc :=
  { orderId := o.orderId, createdAt := o.createdAt, status := o.status,
    totalAmountCents := o.totalAmountCents,
    restaurant := (s.restaurants.find? (fun r => r.restaurantId = o.restaurantId)).map
      (fun r => { restaurantId := r.restaurantId, name := r.name, address := r.address }),
    customer := (findPersonDoc s o.customerId).map
      (fun c => { personId := c.personId, name := c.name, email := c.email }),
    orderItems := orderItemDocsFor s o.orderId,
    payment := (s.payments.find? (fun p => p.orderId = o.orderId)).map
      (fun p => { paymentId := some p.paymentId, amountCents := p.amountCents,
                  method := p.method, paidAt := p.paidAt }),
    delivery := (s.deliveries.find? (fun d => d.orderId = o.orderId)).map
      (fun d => { deliveryId := d.deliveryId, deliveryStatus := d.deliveryStatus,
                  assignedAt := d.assignedAt,
                  rider := (d.riderId.bind (fun rid => findPersonDoc s rid)).map
                    riderSnapOf }) }

/-- `readSqlSnapshot`: the three transformed collections read from the
relational store (restaurants by restaurant_id, people by person_id,
orders by order_id). -/
def readSqlSnapshot (s : SqlState) :
    List RestaurantRow × List PersonDoc × List OrderDoc :=
  (sortByKey (fun r => r.restaurantId) s.restaurants,
   migratedPeople s,
   (sortByKey (fun o => o.orderId) s.orders).map (orderDocOfRow s))

/-- `migrateSqlToMongo`: read the snapshot, deleteMany the three working
collections, insertMany the transformed documents, then upsert the
`meta.migration` marker with counts and the current time.  The prior
Mongo contents are discarded entirely. -/
def migrateSqlToMongo (_m : MongoState) (s : SqlState) (now : Nat) : MongoState :=
  let snap := readSqlSnapshot s
  { restaurants := snap.1, people := snap.2.1, orders := snap.2.2,
    marker := some { source := "mariadb", lastMigrationAt := now,
                     migratedRestaurants := snap.1.length,
                     migratedPeople := snap.2.1.length,
                     migratedOrders := snap.2.2.length } }

/-! ## Customer/restaurant report (GET /student1/{mode}/report)

Both variants are embedded over the same canonical aggregation helpers:
SQL `GROUP BY` and Mongo `$group` share the semantics "one result row per
distinct key with aggregates over that key's rows", their result order
being unspecified; the final `ORDER BY x DESC` / `$sort {x: -1}` leaves
ties in an engine-chosen order, so the embedding applies one
deterministic sort (primary key descending, remaining fields as
tie-break) to both variants. -/

/-- Query parameters of the customer report (restaurantName required,
optional from/to). -/
structure ReportQuery where
  restaurantName : String
  fromDate : Option Nat
  toDate : Option Nat
deriving DecidableEq

/-- GROUP BY / $group: one row per distinct key (first-occurrence order;
the canonical sort below makes the order irrelevant), with `agg` applied
to the rows of that key. -/
def groupAgg {α κ μ : Type} [DecidableEq κ] (key : α → κ) (agg : List α → μ)
    (l : List α) : List (κ × μ) :=
  ((l.map key).dedup).map (fun k => (k, agg (l.filter (fun a => key a = k))))

/-- Deterministic sort by an injective sort key into a linear order. -/
def sortBy {α κ : Type} [LinearOrder κ] (f : α → κ) (l : List α) : List α :=
  List.insertionSort (fun a b => f a ≤ f b) l

/-- Summary KPIs of the customer report (money in cents; the two derived
ratios as exact rationals — both variants render them with the same
`toFixed` call, so equality in ℚ is equality of the rendered strings). -/
structure ReportSummary where
  totalOrders : Nat
  totalRevenueCents : Nat
  avgOrderValueCents : ℚ
  paidOrders : Nat
  unpaidOrders : Nat
  paymentRate : ℚ
deriving DecidableEq

/-- Row of the by-status breakdown. -/
structure StatusRow where
  status : String
  count : Nat
deriving DecidableEq

/-- Row of the by-day breakdown. -/
structure DayRow where
  date : Nat
  orders : Nat
  revenueCents : Nat
deriving DecidableEq

/-- Row of the by-payment-method breakdown (paid orders only). -/
structure MethodRow where
  method : String
  count : Nat
  totalCents : Nat
deriving DecidableEq

/-- Row of the top-items breakdown (`itemName` is the group's name, null
possible in document mode when a migrated item had no menu row). -/
structure TopItemRow where
  itemName : Option String
  totalQuantity : Nat
  totalRevenueCents : Nat
deriving DecidableEq

/-- The full report payload. -/
structure CustomerReport where
  summary : ReportSummary
  byStatus : List StatusRow
  byDay : List DayRow
  byPaymentMethod : List MethodRow
  topItems : List TopItemRow
deriving DecidableEq

/-- Shared construction of the summary from COUNT / SUM / paid counts
(`COALESCE(AVG(..),0)` and the absent-`$group` default make the empty
case 0; `paymentRate` is `paid/total*100` when any order exists). -/
def mkSummary (total revenue paid unpaid : Nat) : ReportSummary :=
  { totalOrders := total, totalRevenueCents := revenue,
    avgOrderValueCents := if total = 0 then 0 else (revenue : ℚ) / (total : ℚ),
    paidOrders := paid, unpaidOrders := unpaid,
    paymentRate := if total = 0 then 0 else (paid : ℚ) * 100 / (total : ℚ) }

/-- Sort key of byStatus: `ORDER BY count DESC`, status as tie-break. -/
def statusKey (a : StatusRow) : ℕᵒᵈ ×ₗ String :=
  toLex (OrderDual.toDual a.count, a.status)

/-- Sort key of byDay: `ORDER BY date DESC`, rest as tie-break. -/
def dayKey (a : DayRow) : ℕᵒᵈ ×ₗ (ℕ ×ₗ ℕ) :=
  toLex (OrderDual.toDual a.date, toLex (a.orders, a.revenueCents))

/-- Sort key of byPaymentMethod: `ORDER BY total DESC`, rest as tie-break. -/
def methodKey (a : MethodRow) : ℕᵒᵈ ×ₗ (String ×ₗ ℕ) :=
  toLex (OrderDual.toDual a.totalCents, toLex (a.method, a.count))

/-- Injective encoding of an optional string for sort keys. -/
def encOptStr : Option String → ℕ ×ₗ String
  | none => toLex (0, "")
  | some s => toLex (1, s)

/-- Sort key of topItems: `ORDER BY totalQuantity DESC`, rest as
tie-break. -/
def topItemKey (a : TopItemRow) : ℕᵒᵈ ×ₗ ((ℕ ×ₗ String) ×ₗ ℕ) :=
  toLex (OrderDual.toDual a.totalQuantity, toLex (encOptStr a.itemName, a.totalRevenueCents))

/-! ### SQL variant (GET /student1/sql/report) -/

/-- `FROM restaurant r JOIN \`order\` o ... WHERE r.name = ?` plus the
optional date bounds — the order rows underlying every aggregate of the
SQL report. -/
def sqlFilteredOrders (s : SqlState) (q : ReportQuery) : List OrderRow :=
  (s.restaurants.filter (fun r => r.name = q.restaurantName)).flatMap (fun r =>
    s.orders.filter (fun o =>
      o.restaurantId = r.restaurantId && inRange q.fromDate q.toDate o.createdAt))

/-- The summary query's `LEFT JOIN payment` rows: each filtered order
paired with its payment rows, or with `none` when it has none. -/
def sqlSummaryRows (s : SqlState) (q : ReportQuery) :
    List (OrderRow × Option PaymentRow) :=
  (sqlFilteredOrders s q).flatMap (fun o =>
    match s.payments.filter (fun p => p.orderId = o.orderId) with
    | [] => [(o, none)]
    | ps => ps.map (fun p => (o, some p)))

/-- Summary KPIs of the SQL report (COUNT(*), SUM/AVG of total_amount,
paid/unpaid via `pay.paid_at IS [NOT] NULL`). -/
def sqlReportSummary (s : SqlState) (q : ReportQuery) : ReportSummary :=
  let rows := sqlSummaryRows s q
  mkSummary rows.length
    (rows.map (fun r => r.1.totalAmountCents)).sum
    (rows.countP (fun r => (r.2.bind (fun p => p.paidAt)).isSome))
    (rows.countP (fun r => (r.2.bind (fun p => p.paidAt)).isNone))

/-- SQL byStatus: `GROUP BY o.status ... ORDER BY count DESC`. -/
def sqlByStatus (s : SqlState) (q : ReportQuery) : List StatusRow :=
  sortBy statusKey
    ((groupAgg (fun o => o.status) List.length (sqlFilteredOrders s q)).map
      (fun kv => { status := kv.1, count := kv.2 }))

/-- SQL byDay: `GROUP BY DATE(o.created_at) ... ORDER BY date DESC
LIMIT 30`. -/
def sqlByDay (s : SqlState) (q : ReportQuery) : List DayRow :=
  (sortBy dayKey
    ((groupAgg (fun o => dayOf o.createdAt)
        (fun l => (l.length, (l.map (fun o => o.totalAmountCents)).sum))
        (sqlFilteredOrders s q)).map
      (fun kv => { date := kv.1, orders := kv.2.1, revenueCents := kv.2.2 }))).take 30

/-- The byPaymentMethod query's `JOIN payment ... AND pay.paid_at IS NOT
NULL` rows. -/
def sqlPaymentRows (s : SqlState) (q : ReportQuery) : List (OrderRow × PaymentRow) :=
  (sqlFilteredOrders s q).flatMap (fun o =>
    (s.payments.filter (fun p => p.orderId = o.orderId && p.paidAt.isSome)).map
      (fun p => (o, p)))

/-- SQL byPaymentMethod: `GROUP BY pay.payment_method ... ORDER BY total
DESC` over paid orders. -/
def sqlByPaymentMethod (s : SqlState) (q : ReportQuery) : List MethodRow :=
  sortBy methodKey
    ((groupAgg (fun r => r.2.method)
        (fun l => (l.length, (l.map (fun r => r.2.amountCents)).sum))
        (sqlPaymentRows s q)).map
      (fun kv => { method := kv.1, count := kv.2.1, totalCents := kv.2.2 }))

/-- The topItems query's `JOIN order_item oi JOIN menu_item m` rows. -/
def sqlTopItemJoinRows (s : SqlState) (q : ReportQuery) :
    List (OrderItemRow × MenuItemRow) :=
  (sqlFilteredOrders s q).flatMap (fun o =>
    (s.orderItems.filter (fun oi => oi.orderId = o.orderId)).flatMap (fun oi =>
      (s.menuItems.filter (fun m => m.menuItemId = oi.menuItemId)).map
        (fun m => (oi, m))))

/-- SQL topItems: `GROUP BY m.menu_item_id, m.name` with SUM(quantity)
and SUM(quantity * unit_price), `ORDER BY totalQuantity DESC LIMIT 5`. -/
def sqlTopItems (s : SqlState) (q : ReportQuery) : List TopItemRow :=
  (sortBy topItemKey
    ((groupAgg (fun r => (r.2.menuItemId, r.2.name))
        (fun l => ((l.map (fun r => r.1.quantity)).sum,
                   (l.map (fun r => r.1.quantity * r.1.unitPriceCents)).sum))
        (sqlTopItemJoinRows s q)).map
      (fun kv => { itemName := some kv.1.2, totalQuantity := kv.2.1,
                   totalRevenueCents := kv.2.2 }))).take 5

/-- GET /student1/sql/report. -/
def sqlCustomerReport (s : SqlState) (q : ReportQuery) : CustomerReport :=
  { summary := sqlReportSummary s q, byStatus := sqlByStatus s q,
    byDay := sqlByDay s q, byPaymentMethod := sqlByPaymentMethod s q,
    topItems := sqlTopItems s q }

/-! ### Mongo variant (GET /student1/mongo/report) -/

/-- The `$match` of every pipeline: `restaurant.name` equals the query
(missing path does not match) plus the optional `createdAt` bounds. -/
def mongoFilteredOrders (mo : MongoState) (q : ReportQuery) : List OrderDoc :=
  mo.orders.filter (fun d =>
    (d.restaurant.map (fun r => r.name) = some q.restaurantName)
      && inRange q.fromDate q.toDate d.createdAt)

/-- `$ne ["$payment.paidAt", null]` (a missing path compares equal to
null in aggregation expressions, and `{"payment.paidAt": {$ne: null}}`
does not match a missing path either). -/
def docPaid (d : OrderDoc) : Bool := (d.payment.bind (fun p => p.paidAt)).isSome

/-- Summary KPIs of the Mongo report ($sum 1, $sum/$avg of totalAmount,
paid/unpaid via the `$cond` on `payment.paidAt`). -/
def mongoReportSummary (mo : MongoState) (q : ReportQuery) : ReportSummary :=
  let docs := mongoFilteredOrders mo q
  mkSummary docs.length
    (docs.map (fun d => d.totalAmountCents)).sum
    (docs.countP docPaid)
    (docs.countP (fun d => !docPaid d))

/-- Mongo byStatus: `$group {_id: "$status", count: {$sum: 1}}`,
`$sort {count: -1}`. -/
def mongoByStatus (mo : MongoState) (q : ReportQuery) : List StatusRow :=
  sortBy statusKey
    ((groupAgg (fun d => d.status) List.length (mongoFilteredOrders mo q)).map
      (fun kv => { status := kv.1, count := kv.2 }))

/-- Mongo byDay: `$group` on `$dateToString "%Y-%m-%d"`, `$sort {date:
-1}`, `$limit 30`. -/
def mongoByDay (mo : MongoState) (q : ReportQuery) : List DayRow :=
  (sortBy dayKey
    ((groupAgg (fun d => dayOf d.createdAt)
        (fun l => (l.length, (l.map (fun d => d.totalAmountCents)).sum))
        (mongoFilteredOrders mo q)).map
      (fun kv => { date := kv.1, orders := kv.2.1, revenueCents := kv.2.2 }))).take 30

/-- Mongo byPaymentMethod: `$match {"payment.paidAt": {$ne: null}}`,
`$group {_id: "$payment.method", count: {$sum: 1}, total: {$sum:
"$payment.amount"}}`, `$sort {total: -1}`. -/
def mongoByPaymentMethod (mo : MongoState) (q : ReportQuery) : List MethodRow :=
  sortBy methodKey
    ((groupAgg (fun d => (d.payment.map (fun p => p.method)).getD "")
        (fun l => (l.length,
                   (l.map (fun d => (d.payment.map (fun p => p.amountCents)).getD 0)).sum))
        ((mongoFilteredOrders mo q).filter docPaid)).map
      (fun kv => { method := kv.1, count := kv.2.1, totalCents := kv.2.2 }))

/-- Mongo topItems: `$unwind "$orderItems"`, `$group {_id:
"$orderItems.name", ...}`, `$sort {totalQuantity: -1}`, `$limit 5`. -/
def mongoTopItems (mo : MongoState) (q : ReportQuery) : List TopItemRow :=
  (sortBy topItemKey
    ((groupAgg (fun i => i.name)
        (fun l => ((l.map (fun i => i.quantity)).sum,
                   (l.map (fun i => i.quantity * i.unitPriceCents)).sum))
        ((mongoFilteredOrders mo q).flatMap (fun d => d.orderItems))).map
      (fun kv => { itemName := kv.1, totalQuantity := kv.2.1,
                   totalRevenueCents := kv.2.2 }))).take 5

/-- GET /student1/mongo/report. -/
def mongoCustomerReport (mo : MongoState) (q : ReportQuery) : CustomerReport :=
  { summary := mongoReportSummary mo q, byStatus := mongoByStatus mo q,
    byDay := mongoByDay mo q, byPaymentMethod := mongoByPaymentMethod mo q,
    topItems := mongoTopItems mo q }

/-- Canonical per-order match of the customer report: the order's
restaurant (resolved by primary key) carries the queried name, and the
creation date is in range.  Both variants' filters reduce to this
predicate under the schema's uniqueness constraints. -/
def orderMatches (s : SqlState) (q : ReportQuery) (o : OrderRow) : Bool :=
  decide ((s.restaurants.find? (fun r => r.restaurantId = o.restaurantId)).map
      (fun r => r.name) = some q.restaurantName)
    && inRange q.fromDate q.toDate o.createdAt

/-- Placeholder payment row for `Option.getD` on lookups that are known
to succeed. -/
def dummyPayment : PaymentRow :=
  { paymentId := 0, orderId := 0, amountCents := 0, method := "",
    paidAt := none }

/-- Placeholder menu row for `Option.getD` on lookups that are known to
succeed (the FK guarantees presence). -/
def dummyMenu : MenuItemRow :=
  { menuItemId := 0, restaurantId := 0, name := "", description := none,
    priceCents := 0 }

/-! ## Concrete example states (used to instantiate the theorems) -/

/-- A small schema-valid relational state: two restaurants, one
customer, one rider, one dual-role person (customer and rider), three
menu items, one paid order with a delivery already assigned. -/
def exSql : SqlState :=
  { restaurants :=
      [{ restaurantId := 1, name := "Plachutta", address := "addr1" },
       { restaurantId := 2, name := "Cafe Central", address := "addr2" }],
    persons :=
      [{ personId := 1, name := "Customer 1", email := "customer1@example.com",
         phone := none },
       { personId := 2, name := "Rider 1", email := "rider1@example.com",
         phone := none },
       { personId := 3, name := "Dual Role", email := "dual@example.com",
         phone := none }],
    customers :=
      [{ customerId := 1, defaultAddress := none, preferredPaymentMethod := none },
       { customerId := 3, defaultAddress := none, preferredPaymentMethod := none }],
    riders :=
      [{ riderId := 2, vehicleType := "bike", rating := some 47 },
       { riderId := 3, vehicleType := "car", rating := some 40 }],
    menuItems :=
      [{ menuItemId := 1, restaurantId := 1, name := "Tafelspitz",
         description := none, priceCents := 950 },
       { menuItemId := 2, restaurantId := 2, name := "Melange",
         description := none, priceCents := 480 },
       { menuItemId := 3, restaurantId := 1, name := "Espresso Shot",
         description := none, priceCents := 10 }],
    orders :=
      [{ orderId := 1, customerId := 1, restaurantId := 1, createdAt := 0,
         status := "created", totalAmountCents := 1900 }],
    orderItems :=
      [{ orderItemId := 1, orderId := 1, menuItemId := 1, quantity := 2,
         unitPriceCents := 950 }],
    payments :=
      [{ paymentId := 1, orderId := 1, amountCents := 1900, method := "card",
         paidAt := some 5 }],
    deliveries :=
      [{ deliveryId := 1, orderId := 1, riderId := some 2, assignedAt := some 7,
         deliveryStatus := "assigned" }] }

/-- Customer document of the example Mongo state. -/
def exCustomerDoc : PersonDoc :=
  { personId := 1, type := "customer", name := "Customer 1",
    email := "customer1@example.com", phone := none,
    customer := some { defaultAddress := none,
                       preferredPaymentMethod := none },
    rider := none }

/-- Rider document of the example Mongo state. -/
def exRiderDoc : PersonDoc :=
  { personId := 2, type := "rider", name := "Rider 1",
    email := "rider1@example.com", phone := none, customer := none,
    rider := some { vehicleType := "bike", rating := some 47 } }

/-- Payment sub-document of the example order document (already paid). -/
def exPaymentDoc : PaymentDoc :=
  { paymentId := some 1, amountCents := 1900, method := "card",
    paidAt := some 5 }

/-- Delivery sub-document of the example order document (already
assigned at time 7). -/
def exDeliveryDoc : DeliveryDoc :=
  { deliveryId := 1, deliveryStatus := "assigned", assignedAt := some 7,
    rider := some { personId := 2, name := "Rider 1",
                    email := "rider1@example.com", vehicleType := some "bike",
                    rating := some 47 } }

/-- The example order document: paid and assigned. -/
def exOrderDoc : OrderDoc :=
  { orderId := 1, createdAt := 0, status := "created",
    totalAmountCents := 1900,
    restaurant := some { restaurantId := 1, name := "Plachutta",
                         address := "addr1" },
    customer := some { personId := 1, name := "Customer 1",
                       email := "customer1@example.com" },
    orderItems := [{ menuItemId := some 1, name := some "Tafelspitz",
                     quantity := 2, unitPriceCents := 950 }],
    payment := some exPaymentDoc,
    delivery := some exDeliveryDoc }

/-- A small Mongo state with one already-paid, already-assigned order. -/
def exMongo : MongoState :=
  { restaurants :=
      [{ restaurantId := 1, name := "Plachutta", address := "addr1" }],
    people := [exCustomerDoc, exRiderDoc],
    orders := [exOrderDoc],
    marker := some { source := "mariadb", lastMigrationAt := 3,
                     migratedRestaurants := 1, migratedPeople := 2,
                     migratedOrders := 1 } }

/-- The relational state after the witness place-order run. -/
def exSqlPlaced : SqlState :=
  { exSql with
    orders := exSql.orders ++
      [{ orderId := 2, customerId := 1, restaurantId := 1, createdAt := 100,
         status := "created", totalAmountCents := 30 }],
    orderItems := exSql.orderItems ++
      [{ orderItemId := 2, orderId := 2, menuItemId := 3, quantity := 3,
         unitPriceCents := 10 }] }

/-- The response of the witness SQL place-order run (3 items at 10
cents: exactly 30 cents). -/
def exPlacedOut : PlacedOrderOut :=
  { orderId := 2, createdAt := 100, status := "created",
    totalAmountCents := 30, restaurantName := "Plachutta",
    restaurantAddress := "addr1", customerName := "Customer 1",
    customerEmail := "customer1@example.com",
    orderItems := [{ menuItemId := 3, name := "Espresso Shot", quantity := 3,
                     unitPriceCents := 10 }] }

/-- The document created by the witness Mongo place-order run. -/
def exMongoPlacedDoc : OrderDoc :=
  { orderId := 2, createdAt := 100, status := "created",
    totalAmountCents := 30,
    restaurant := some { restaurantId := 1, name := "Plachutta",
                         address := "addr1" },
    customer := some { personId := 1, name := "Customer 1",
                       email := "customer1@example.com" },
    orderItems := [{ menuItemId := none, name := some "Espresso Shot",
                     quantity := 3, unitPriceCents := 10 }],
    payment := none, delivery := none }

/-- The Mongo state after the witness place-order run. -/
def exMongoPlaced : MongoState :=
  { exMongo with orders := exMongo.orders ++ [exMongoPlacedDoc] }

/-- A schema-valid relational state on which the two report variants
disagree: one restaurant whose menu has two distinct rows sharing the
name "X" (the schema puts no unique constraint on `menu_item.name`), and
one order containing both items.  Every actual constraint holds: all
primary keys are unique, `payment.order_id` is trivially unique, and
every order item references an existing menu item. -/
def cxSql : SqlState :=
  { restaurants := [{ restaurantId := 1, name := "R", address := "a" }],
    persons := [], customers := [], riders := [],
    menuItems :=
      [{ menuItemId := 1, restaurantId := 1, name := "X",
         description := none, priceCents := 100 },
       { menuItemId := 2, restaurantId := 1, name := "X",
         description := none, priceCents := 200 }],
    orders :=
      [{ orderId := 1, customerId := 1, restaurantId := 1, createdAt := 0,
         status := "created", totalAmountCents := 400 }],
    orderItems :=
      [{ orderItemId := 1, orderId := 1, menuItemId := 1, quantity := 2,
         unitPriceCents := 100 },
       { orderItemId := 2, orderId := 1, menuItemId := 2, quantity := 1,
         unitPriceCents := 200 }],
    payments := [], deliveries := [] }

/-- The report query used against the shared-menu-name state. -/
def cxQuery : ReportQuery :=
  { restaurantName := "R", fromDate := none, toDate := none }

/-- An empty document store to migrate into (its contents are discarded
by the migration anyway). -/
def cxMongoInit : MongoState :=
  { restaurants := [], people := [], orders := [], marker := none }

/-! ## General helper lemmas -/

/-- A keyed `UPDATE ... WHERE key = oid` followed by a `SELECT ... WHERE
key = oid LIMIT 1` returns the updated row, provided keys are unique and
the update preserves the key. -/
theorem find?_map_update {α : Type} (key : α → Nat) (f : α → α) (oid : Nat) (d : α)
    (hf : key (f d) = key d) :
    ∀ l : List α, (l.map key).Nodup → d ∈ l → key d = oid →
      (l.map (fun x => if key x = oid then f x else x)).find?
        (fun x => key x = oid) = some (f d)
  | [], _, hmem, _ => absurd hmem (List.not_mem_nil d)
  | x :: xs, hnd, hmem, hk => by
      simp only [List.map_cons, List.nodup_cons] at hnd
      by_cases hx : key x = oid
      · have hxd : x = d := by
          rcases List.mem_cons.mp hmem with h | h
          · exact h.symm
          · exact absurd (List.mem_map.mpr ⟨d, h, hk.trans hx.symm⟩) hnd.1
        subst hxd
        simp [List.find?_cons, hx, hf, hk]
      · have hdxs : d ∈ xs := by
          rcases List.mem_cons.mp hmem with h | h
          · exact absurd (h ▸ hk) hx
          · exact h
        simp only [List.map_cons, List.find?_cons, if_neg hx]
        have : (decide (key x = oid)) = false := by simp [hx]
        rw [this]
        exact find?_map_update key f oid d hf xs hnd.2 hdxs hk

/-- Under a unique key column, any row matching the key of a
`find?`-returned row is that row. -/
theorem eq_of_mem_nodup_key {α κ : Type} [DecidableEq κ] (key : α → κ) (d : α) :
    ∀ l : List α, (l.map key).Nodup → d ∈ l → ∀ x ∈ l, key x = key d → x = d
  | [], _, hmem, _, _, _ => absurd hmem (List.not_mem_nil d)
  | a :: l, hnd, hmem, x, hx, hk => by
      simp only [List.map_cons, List.nodup_cons] at hnd
      rcases List.mem_cons.mp hmem with hda | hdl
      · rcases List.mem_cons.mp hx with hxa | hxl
        · exact hxa.trans hda.symm
        · exact absurd (List.mem_map.mpr ⟨x, hxl, by rw [hk, hda]⟩) hnd.1
      · rcases List.mem_cons.mp hx with hxa | hxl
        · exact absurd (List.mem_map.mpr ⟨d, hdl, by rw [← hk, hxa]⟩) hnd.1
        · exact eq_of_mem_nodup_key key d l hnd.2 hdl x hxl hk

/-- Successful run of POST /student1/mongo/pay: with a unique-index state
and a matching order document, the endpoint returns the pipeline-updated
state and echoes the updated document. -/
theorem mongoPay_ok (m : MongoState) (oid : Nat) (pm : String) (now : Nat)
    (d : OrderDoc)
    (hnd : (m.orders.map (fun x => x.orderId)).Nodup)
    (hmem : d ∈ m.orders) (hd : d.orderId = oid) (hpm : pm ≠ "") :
    mongoPay m oid pm now = Except.ok
      ({ m with orders := m.orders.map (fun x =>
            if x.orderId = oid then mongoPayStep pm now x else x) },
       { orderId := (mongoPayStep pm now d).orderId,
         status := (mongoPayStep pm now d).status,
         payment := (mongoPayStep pm now d).payment }) := by
  have hall : (m.orders.all (fun x => x.orderId ≠ oid)) = false := by
    rw [Bool.eq_false_iff]
    intro hc
    rw [List.all_eq_true] at hc
    exact absurd hd (by simpa using hc d hmem)
  have hfind := find?_map_update (fun x : OrderDoc => x.orderId)
    (mongoPayStep pm now) oid d rfl m.orders hnd hmem hd
  have hpaidAt : ((mongoPayStep pm now d).payment.bind
      (fun p => p.paidAt)).isNone = false := by
    simp [mongoPayStep]
  simp only [mongoPay, if_neg hpm, hall, Bool.false_eq_true, if_false,
    hfind, hpaidAt]

/-- Inversion of a successful POST /student1/sql/pay: the transaction only
rewrites the payment table and the order's status column; order ids and
totals, the order items and every other table survive unchanged. -/
theorem sqlPay_ok_inv (s : SqlState) (oid : Nat) (pm : String) (now : Nat)
    (s2 : SqlState) (pout : PaymentOut)
    (h : sqlPay s oid pm now = Except.ok (s2, pout)) :
    s2.orders.map (fun o => (o.orderId, o.totalAmountCents)) =
      s.orders.map (fun o => (o.orderId, o.totalAmountCents)) ∧
    s2.orderItems = s.orderItems ∧ s2.restaurants = s.restaurants ∧
    s2.menuItems = s.menuItems ∧ s2.deliveries = s.deliveries := by
  simp only [sqlPay] at h
  split at h
  · exact Except.noConfusion h
  · split at h
    · exact Except.noConfusion h
    · split at h
      · exact Except.noConfusion h
      · split at h
        · exact Except.noConfusion h
        · injection h with h2
          obtain ⟨hs2, -⟩ := Prod.mk.inj h2
          subst hs2
          refine ⟨?_, rfl, rfl, rfl, rfl⟩
          simp only [List.map_map]
          apply List.map_congr_left
          intro o _
          by_cases hk : o.orderId = oid <;> simp [hk]

/-! ## Claims -/

/-- C6: In document mode, Pay is idempotent with respect to the payment
record: for an order document that is already paid, a second Pay call
succeeds (no Conflict) and leaves payment.paidAt and payment.method
unchanged (first-writer-wins via set-if-currently-null), and a successful
Pay advances status from "created" to "preparing", leaving any later
status unchanged. -/
theorem claim6_mongoPay_idempotent_on_paid
    (m : MongoState) (oid : Nat) (pm : String) (now : Nat) (d : OrderDoc)
    (p0 : PaymentDoc) (t0 : Nat)
    (hnd : (m.orders.map (fun x => x.orderId)).Nodup)
    (hmem : d ∈ m.orders) (hd : d.orderId = oid) (hpm : pm ≠ "")
    (hp0 : d.payment = some p0) (hpaid : p0.paidAt = some t0) :
    ∃ m' out, mongoPay m oid pm now = Except.ok (m', out) ∧
      (∃ p', out.payment = some p' ∧ p'.paidAt = some t0 ∧ p'.method = p0.method) ∧
      out.status = (if d.status = "created" then "preparing" else d.status) := by
  refine ⟨_, _, mongoPay_ok m oid pm now d hnd hmem hd hpm, ?_, rfl⟩
  exact ⟨_, rfl, by simp [mongoPayStep, hp0, hpaid], by simp [mongoPayStep, hp0]⟩

/-- C9: Every document-mode Pay call on an existing order, including an
already-paid one, unconditionally overwrites payment.amount with the
order's current totalAmount, while payment.paymentId, payment.method and
payment.paidAt are preserved whenever they are already set; no other
order fields besides status and payment are modified (and no other
document or collection is touched). -/
theorem claim9_mongoPay_amount_overwrite_frame
    (m : MongoState) (oid : Nat) (pm : String) (now : Nat) (d : OrderDoc)
    (hnd : (m.orders.map (fun x => x.orderId)).Nodup)
    (hmem : d ∈ m.orders) (hd : d.orderId = oid) (hpm : pm ≠ "") :
    ∃ m' out d', mongoPay m oid pm now = Except.ok (m', out) ∧
      m'.restaurants = m.restaurants ∧ m'.people = m.people ∧
      m'.marker = m.marker ∧
      m'.orders = m.orders.map (fun x =>
        if x.orderId = oid then mongoPayStep pm now x else x) ∧
      m'.orders.find? (fun x => x.orderId = oid) = some d' ∧
      (∃ p', d'.payment = some p' ∧
        p'.amountCents = d.totalAmountCents ∧
        (∀ x, (d.payment.bind (fun p => p.paymentId)) = some x →
          p'.paymentId = some x) ∧
        (∀ p0, d.payment = some p0 → p'.method = p0.method) ∧
        (∀ t, (d.payment.bind (fun p => p.paidAt)) = some t →
          p'.paidAt = some t)) ∧
      d'.orderId = d.orderId ∧ d'.createdAt = d.createdAt ∧
      d'.totalAmountCents = d.totalAmountCents ∧ d'.restaurant = d.restaurant ∧
      d'.customer = d.customer ∧ d'.orderItems = d.orderItems ∧
      d'.delivery = d.delivery := by
  have hfind := find?_map_update (fun x : OrderDoc => x.orderId)
    (mongoPayStep pm now) oid d rfl m.orders hnd hmem hd
  refine ⟨_, _, mongoPayStep pm now d,
    mongoPay_ok m oid pm now d hnd hmem hd hpm,
    rfl, rfl, rfl, rfl, hfind, ?_, rfl, rfl, rfl, rfl, rfl, rfl, rfl⟩
  refine ⟨_, rfl, rfl, ?_, ?_, ?_⟩
  · intro x hx
    simp [mongoPayStep, hx]
  · intro p0 hp0
    simp [mongoPayStep, hp0]
  · intro t ht
    simp [mongoPayStep, ht]

/-- C1: For every successfully placed order (relational or document mode,
any non-empty list of valid items), the returned and persisted
totalAmount equals the exact sum over its items of quantity times
unitPrice, computed in integer cents with no rounding drift, and it is
computed at order-creation time and never recomputed afterward (a later
Pay rewrites only payment and status, never an order's total). -/
theorem claim1_totalAmount_exact_cent_sum
    (s : SqlState) (ce rn : String) (items : List PlaceItemReq) (now : Nat)
    (m : MongoState) (mce mrn : String) (mitems : List MongoItemReq) (mnow : Nat) :
    (∀ s' out, sqlPlaceOrder s ce rn items now = Except.ok (s', out) →
      out.totalAmountCents =
        (out.orderItems.map (fun i => i.quantity * i.unitPriceCents)).sum ∧
      (∃ o ∈ s'.orders, o.orderId = out.orderId ∧
        o.totalAmountCents = out.totalAmountCents) ∧
      (∃ rows, s'.orderItems = s.orderItems ++ rows ∧
        (∀ r ∈ rows, r.orderId = out.orderId) ∧
        (rows.map (fun r => r.quantity * r.unitPriceCents)).sum =
          out.totalAmountCents) ∧
      (∀ pm t2 s2 pout, sqlPay s' out.orderId pm t2 = Except.ok (s2, pout) →
        s2.orders.map (fun o => (o.orderId, o.totalAmountCents)) =
          s'.orders.map (fun o => (o.orderId, o.totalAmountCents)))) ∧
    (∀ m' out, mongoPlaceOrder m mce mrn mitems mnow = Except.ok (m', out) →
      out.totalAmountCents =
        (out.orderItems.map (fun i => i.quantity * i.unitPriceCents)).sum ∧
      ∃ d ∈ m'.orders, d.orderId = out.orderId ∧
        d.totalAmountCents = out.totalAmountCents ∧
        d.orderItems = out.orderItems) := by
  have hsum : ∀ (tail : List (MenuItemRow × Nat)),
      ((tail.map (fun rq =>
          ({ menuItemId := rq.1.menuItemId, name := rq.1.name,
             quantity := rq.2, unitPriceCents := rq.1.priceCents }
            : PlacedItemOut))).map
        (fun i => i.quantity * i.unitPriceCents)).sum =
        (tail.map (fun rq => rq.1.priceCents * rq.2)).sum := by
    intro tail
    simp only [List.map_map]
    congr 1
    apply List.map_congr_left
    intro rq _
    exact Nat.mul_comm rq.2 rq.1.priceCents
  have hrowid : ∀ (tail : List (MenuItemRow × Nat)) (base oid : Nat) r,
      r ∈ tail.enum.map (fun iq =>
        ({ orderItemId := base + iq.1, orderId := oid,
           menuItemId := iq.2.1.menuItemId, quantity := iq.2.2,
           unitPriceCents := iq.2.1.priceCents } : OrderItemRow)) →
      r.orderId = oid := by
    intro tail base oid r hr
    obtain ⟨iq, -, hiq⟩ := List.mem_map.mp hr
    rw [← hiq]
  have hrowsum : ∀ (tail : List (MenuItemRow × Nat)) (base oid : Nat),
      ((tail.enum.map (fun iq =>
          ({ orderItemId := base + iq.1, orderId := oid,
             menuItemId := iq.2.1.menuItemId, quantity := iq.2.2,
             unitPriceCents := iq.2.1.priceCents } : OrderItemRow))).map
        (fun r => r.quantity * r.unitPriceCents)).sum =
        (tail.map (fun rq => rq.1.priceCents * rq.2)).sum := by
    intro tail base oid
    simp only [List.map_map]
    have h1 : ((fun r : OrderItemRow => r.quantity * r.unitPriceCents) ∘
        (fun iq : Nat × (MenuItemRow × Nat) =>
          ({ orderItemId := base + iq.1, orderId := oid,
             menuItemId := iq.2.1.menuItemId, quantity := iq.2.2,
             unitPriceCents := iq.2.1.priceCents } : OrderItemRow))) =
        (fun rq : MenuItemRow × Nat => rq.1.priceCents * rq.2) ∘ Prod.snd := by
      funext iq
      exact Nat.mul_comm iq.2.2 iq.2.1.priceCents
    rw [h1, ← List.map_map, List.enum_map_snd]
  constructor
  · intro s' out h
    simp only [sqlPlaceOrder] at h
    split at h
    · exact Except.noConfusion h
    · split at h
      · exact Except.noConfusion h
      · split at h
        · exact Except.noConfusion h
        · split at h
          · exact Except.noConfusion h
          · split at h
            · exact Except.noConfusion h
            · split at h
              · exact Except.noConfusion h
              · injection h with h2
                obtain ⟨hs', hout⟩ := Prod.mk.inj h2
                subst hs'
                subst hout
                exact ⟨(hsum _).symm,
                  ⟨_, List.mem_append_right _ (List.mem_singleton.mpr rfl),
                    rfl, rfl⟩,
                  ⟨_, rfl, hrowid _ _ _, (hrowsum _ _ _).trans rfl⟩,
                  fun pm t2 s2 pout hpay => (sqlPay_ok_inv _ _ _ _ _ _ hpay).1⟩
  · intro m' out h
    simp only [mongoPlaceOrder] at h
    split at h
    · exact Except.noConfusion h
    · split at h
      · exact Except.noConfusion h
      · split at h
        · exact Except.noConfusion h
        · split at h
          · exact Except.noConfusion h
          · split at h
            · exact Except.noConfusion h
            · split at h
              · exact Except.noConfusion h
              · injection h with h2
                obtain ⟨hm', hout⟩ := Prod.mk.inj h2
                subst hm'
                subst hout
                refine ⟨?_, _,
                  List.mem_append_right _ (List.mem_singleton.mpr rfl),
                  rfl, rfl, rfl⟩
                simp only []
                congr 1
                apply List.map_congr_left
                intro i _
                exact Nat.mul_comm i.unitPriceCents i.quantity

/-- C4: For every order with an existing delivery whose assignedAt is
already set, a subsequent AssignDelivery call (either storage mode)
leaves assignedAt unchanged and changes only the rider and the
deliveryStatus (assignedAt is set exactly once, on the first
assignment). -/
theorem claim4_assignedAt_set_once
    (s : SqlState) (re : String) (oid : Nat) (ds : String) (now : Nat)
    (rp : PersonRow) (ex : DeliveryRow) (t : Nat)
    (m : MongoState) (mre : String) (moid : Nat) (mds : String) (mnow : Nat)
    (mrp : PersonDoc) (d : OrderDoc) (del : DeliveryDoc) (mt : Nat)
    (hre : re ≠ "") (hds : ds ≠ "")
    (hrp : findRiderByEmail s re = some rp)
    (hord : ∃ o ∈ s.orders, o.orderId = oid)
    (hnd : (s.deliveries.map (fun x => x.orderId)).Nodup)
    (hex : s.deliveries.find? (fun x => x.orderId = oid) = some ex)
    (hext : ex.assignedAt = some t)
    (hmre : mre ≠ "") (hmds : mds ≠ "")
    (hmrp : m.people.find? (fun p => p.type = "rider" && p.email = mre) = some mrp)
    (hmnd : (m.orders.map (fun x => x.orderId)).Nodup)
    (hmmem : d ∈ m.orders) (hmd : d.orderId = moid)
    (hmdel : d.delivery = some del) (hmt : del.assignedAt = some mt) :
    (∃ s' out, sqlAssignDelivery s re oid ds now = Except.ok (s', out) ∧
      s'.restaurants = s.restaurants ∧ s'.persons = s.persons ∧
      s'.customers = s.customers ∧ s'.riders = s.riders ∧
      s'.menuItems = s.menuItems ∧ s'.orders = s.orders ∧
      s'.orderItems = s.orderItems ∧ s'.payments = s.payments ∧
      s'.deliveries = s.deliveries.map (fun dd =>
        if dd.orderId = oid then
          { dd with riderId := some rp.personId, deliveryStatus := ds }
        else dd) ∧
      out.assignedAt = some t ∧ out.deliveryStatus = ds) ∧
    (∃ m', mongoAssignDelivery m mre moid mds mnow = Except.ok m' ∧
      m'.restaurants = m.restaurants ∧ m'.people = m.people ∧
      m'.marker = m.marker ∧
      m'.orders = m.orders.map (fun x =>
        if x.orderId = moid then
          { x with delivery := some ({ del with
              deliveryStatus := mds, rider := some (riderSnapOf mrp) }) }
        else x)) := by
  constructor
  · -- SQL variant
    have hexmem : ex ∈ s.deliveries := List.mem_of_find?_eq_some hex
    have hexk : ex.orderId = oid := by
      have := List.find?_some hex
      simpa using this
    have hnotall : ¬ (∀ o ∈ s.orders, ¬ o.orderId = oid) := by
      obtain ⟨o, ho, hoid⟩ := hord
      exact fun hc => (hc o ho) hoid
    have hall : (s.orders.all (fun o => o.orderId ≠ oid)) = false := by
      rw [Bool.eq_false_iff]
      intro hc
      rw [List.all_eq_true] at hc
      exact hnotall (fun o ho => by simpa using hc o ho)
    have hupd := find?_map_update (fun x : DeliveryRow => x.orderId)
      (fun dd => { dd with
        riderId := some rp.personId,
        assignedAt := some (ex.assignedAt.getD now),
        deliveryStatus := ds }) oid ex rfl s.deliveries hnd hexmem hexk
    have hmapeq : s.deliveries.map (fun dd =>
        if dd.orderId = oid then
          { dd with
            riderId := some rp.personId,
            assignedAt := some (ex.assignedAt.getD now),
            deliveryStatus := ds }
        else dd) = s.deliveries.map (fun dd =>
        if dd.orderId = oid then
          { dd with riderId := some rp.personId, deliveryStatus := ds }
        else dd) := by
      apply List.map_congr_left
      intro dd hdd
      by_cases hk : dd.orderId = oid
      · have : dd = ex := eq_of_mem_nodup_key (fun x : DeliveryRow => x.orderId)
          ex s.deliveries hnd hexmem dd hdd (hk.trans hexk.symm)
        subst this
        simp [if_pos hk, hext]
      · simp [if_neg hk]
    have hriderSome : ((s.persons.find? (fun p =>
        some p.personId = some rp.personId
          && s.riders.any (fun r => r.riderId = p.personId)))).isSome := by
      rw [List.find?_isSome]
      refine ⟨rp, ?_, ?_⟩
      · exact List.mem_of_find?_eq_some hrp
      · have := List.find?_some hrp
        simp only [findRiderByEmail] at hrp
        have hp := List.find?_some hrp
        simp only [Bool.and_eq_true, decide_eq_true_eq] at hp
        simp [hp.2]
    obtain ⟨outRider, houtRider⟩ := Option.isSome_iff_exists.mp hriderSome
    refine ⟨{ s with deliveries := s.deliveries.map (fun dd =>
        if dd.orderId = oid then
          { dd with
            riderId := some rp.personId,
            assignedAt := some (ex.assignedAt.getD now),
            deliveryStatus := ds }
        else dd) },
      { deliveryId := ex.deliveryId, orderId := ex.orderId,
        riderEmail := outRider.email, deliveryStatus := ds,
        assignedAt := some t },
      ?_, rfl, rfl, rfl, rfl, rfl, rfl, rfl, rfl, hmapeq, rfl, rfl⟩
    simp only [sqlAssignDelivery, if_neg hre, if_neg hds, hrp, hex, hall,
      Bool.false_eq_true, if_false, hupd, houtRider]
    simp only [hext, Option.getD_some]
  · have hallm : ¬ (∀ x ∈ m.orders, ¬ x.orderId = moid) :=
      fun hc => (hc d hmmem) hmd
    have hallmb : (m.orders.all (fun x => x.orderId ≠ moid)) = false := by
      rw [Bool.eq_false_iff]
      intro hc
      rw [List.all_eq_true] at hc
      exact hallm (fun x hx => by simpa using hc x hx)
    refine ⟨{ m with orders := m.orders.map (fun x =>
        if x.orderId = moid then
          mongoAssignStep (riderSnapOf mrp) mds mnow x
        else x) }, ?_, rfl, rfl, rfl, ?_⟩
    · simp only [mongoAssignDelivery, if_neg hmre, if_neg hmds, hmrp, hallmb,
        Bool.false_eq_true, if_false]
    · apply List.map_congr_left
      intro x hx
      by_cases hk : x.orderId = moid
      · have hxd : x = d := eq_of_mem_nodup_key (fun y : OrderDoc => y.orderId)
          d m.orders hmnd hmmem x hx (hk.trans hmd.symm)
        subst hxd
        simp [if_pos hk, mongoAssignStep, hmdel, hmt]
      · simp [if_neg hk]

/-- C7: Running the reset operation after a migration deletes the meta
migration marker and empties the three working document collections, so
a subsequent health check reports active mode "sql" (active mode is
"mongo" iff a migration marker exists and the document order count is
greater than zero). -/
theorem claim7_reset_clears_marker_health_sql :
    ∀ m : MongoState,
      (clearMongoAfterSqlReset m).restaurants = [] ∧
      (clearMongoAfterSqlReset m).people = [] ∧
      (clearMongoAfterSqlReset m).orders = [] ∧
      (clearMongoAfterSqlReset m).marker = none ∧
      healthActiveMode (clearMongoAfterSqlReset m) = "sql" ∧
      (∀ m' : MongoState,
        healthActiveMode m' = "mongo" ↔ m'.marker.isSome ∧ 0 < m'.orders.length) := by
  intro m
  refine ⟨rfl, rfl, rfl, rfl, by simp [healthActiveMode, clearMongoAfterSqlReset], ?_⟩
  intro m'
  unfold healthActiveMode
  by_cases hp : m'.marker.isSome = true ∧ 0 < m'.orders.length
  · rw [if_pos hp]
    simp [hp]
  · rw [if_neg hp]
    simp only [iff_false_intro hp, iff_false]
    intro hcontra
    exact absurd (congrArg String.length hcontra) (by decide)

/-- C5: In relational mode, Pay on an order whose payment already has
paidAt set fails with Conflict (HTTP 409) and performs no write (the
transaction aborts before any write, so the first payment's fields
survive unchanged); Pay on an absent orderId fails NotFound. -/
theorem claim5_sqlPay_conflict_on_paid_notFound_on_absent
    (s : SqlState) (oid1 oid2 : Nat) (pm : String) (now : Nat) (p : PaymentRow)
    (t : Nat)
    (hpm : pm ≠ "")
    (horder : (s.orders.find? (fun o => o.orderId = oid1)).isSome)
    (hfindp : s.payments.find? (fun q => q.orderId = oid1) = some p)
    (hpaid : p.paidAt = some t)
    (habsent : ∀ o ∈ s.orders, o.orderId ≠ oid2) :
    sqlPay s oid1 pm now = Except.error (ApiErr.conflict "order already paid") ∧
    (ApiErr.conflict "order already paid").statusCode = 409 ∧
    sqlPay s oid2 pm now = Except.error (ApiErr.notFound "order not found") := by
  refine ⟨?_, rfl, ?_⟩
  · obtain ⟨o, ho⟩ := Option.isSome_iff_exists.mp horder
    simp [sqlPay, if_neg hpm, ho, hfindp, hpaid]
  · have hnone : s.orders.find? (fun o => o.orderId = oid2) = none := by
      rw [List.find?_eq_none]
      intro o ho
      simp [habsent o ho]
    simp [sqlPay, if_neg hpm, hnone]

/-- C3: MigrateSnapshot is a deterministic function of the relational
snapshot: for any fixed relational state, the three working document
collections after migration do not depend on the prior Mongo contents,
so migrating twice in a row with no intervening writes leaves them with
identical contents both times — same document counts and same
snapshotted field values. -/
theorem claim3_migration_deterministic :
    ∀ (m1 m2 : MongoState) (s : SqlState) (t1 t2 : Nat),
      (migrateSqlToMongo m1 s t1).restaurants =
        (migrateSqlToMongo m2 s t2).restaurants ∧
      (migrateSqlToMongo m1 s t1).people = (migrateSqlToMongo m2 s t2).people ∧
      (migrateSqlToMongo m1 s t1).orders = (migrateSqlToMongo m2 s t2).orders ∧
      (migrateSqlToMongo (migrateSqlToMongo m1 s t1) s t2).restaurants =
        (migrateSqlToMongo m1 s t1).restaurants ∧
      (migrateSqlToMongo (migrateSqlToMongo m1 s t1) s t2).people =
        (migrateSqlToMongo m1 s t1).people ∧
      (migrateSqlToMongo (migrateSqlToMongo m1 s t1) s t2).orders =
        (migrateSqlToMongo m1 s t1).orders ∧
      (migrateSqlToMongo (migrateSqlToMongo m1 s t1) s t2).restaurants.length =
        (migrateSqlToMongo m1 s t1).restaurants.length ∧
      (migrateSqlToMongo (migrateSqlToMongo m1 s t1) s t2).people.length =
        (migrateSqlToMongo m1 s t1).people.length ∧
      (migrateSqlToMongo (migrateSqlToMongo m1 s t1) s t2).orders.length =
        (migrateSqlToMongo m1 s t1).orders.length :=
  fun _ _ _ _ _ => ⟨rfl, rfl, rfl, rfl, rfl, rfl, rfl, rfl, rfl⟩

/-- In the SQL place-order item loop, once the items before it resolve,
an item whose menuItemId misses the order's restaurant (the lookup is
scoped `WHERE menu_item_id = ? AND restaurant_id = ?`) aborts the whole
loop with the 404 carrying that item's index. -/
theorem processItems_foreign (s : SqlState) (rid : Nat) (bad : PlaceItemReq)
    (post : List PlaceItemReq) (mid : Nat)
    (hq : 0 < bad.quantity) (hbad : bad.menuItemId = some mid)
    (hforeign : ∀ mi ∈ s.menuItems, mi.menuItemId = mid →
      mi.restaurantId ≠ rid) :
    ∀ (pre : List PlaceItemReq) (idx : Nat) (acc : List (MenuItemRow × Nat)),
      processItems s rid idx pre = Except.ok acc →
      processItems s rid idx (pre ++ bad :: post) =
        Except.error (ApiErr.notFound
          ("menu item not found for items[" ++ toString (idx + pre.length) ++ "]")) := by
  intro pre
  induction pre with
  | nil =>
      intro idx acc _
      have hfind : s.menuItems.find? (fun mi =>
          mi.menuItemId = mid && mi.restaurantId = rid) = none := by
        rw [List.find?_eq_none]
        intro mi hmi
        simp only [Bool.and_eq_true, decide_eq_true_eq, not_and]
        exact fun h1 => hforeign mi hmi h1
      have hqneg : ¬ bad.quantity ≤ 0 := by omega
      simp [processItems, if_neg hqneg, resolveMenuItem, hbad, hfind]
  | cons it pre ih =>
      intro idx acc h
      simp only [List.cons_append, processItems] at h ⊢
      split at h
      · exact Except.noConfusion h
      · rename_i hqok
        split at h
        · exact Except.noConfusion h
        · split at h
          · exact Except.noConfusion h
          · rename_i tail htail
            rw [if_neg hqok]
            simp only [List.append_eq]
            rw [ih (idx + 1) tail htail]
            have harith : idx + 1 + pre.length = idx + (pre.length + 1) := by
              omega
            simp [harith]

/-- C10: In relational PlaceOrder, a menu item referenced by menuItemId
is resolved only within the restaurant named in the request: for an item
whose menuItemId exists but belongs to a different restaurant, the call
fails NotFound (HTTP 404) and, the transaction rolling back, no order or
order-item row is created (the error result carries no state). -/
theorem claim10_menuItemId_scoped_to_restaurant
    (s : SqlState) (ce rn : String) (pre post : List PlaceItemReq)
    (bad : PlaceItemReq) (mid now : Nat) (cust : PersonRow)
    (rest : RestaurantRow) (acc : List (MenuItemRow × Nat))
    (hce : ce ≠ "") (hrn : rn ≠ "")
    (hcust : findCustomerByEmail s ce = some cust)
    (hrest : s.restaurants.find? (fun r => r.name = rn) = some rest)
    (hpre : processItems s rest.restaurantId 0 pre = Except.ok acc)
    (hq : 0 < bad.quantity) (hbad : bad.menuItemId = some mid)
    (hexists : ∃ mi ∈ s.menuItems, mi.menuItemId = mid)
    (hforeign : ∀ mi ∈ s.menuItems, mi.menuItemId = mid →
      mi.restaurantId ≠ rest.restaurantId) :
    sqlPlaceOrder s ce rn (pre ++ bad :: post) now =
      Except.error (ApiErr.notFound
        ("menu item not found for items[" ++ toString pre.length ++ "]")) ∧
    (ApiErr.notFound
      ("menu item not found for items[" ++ toString pre.length ++ "]")).statusCode
      = 404 := by
  have hitems : (pre ++ bad :: post).isEmpty = false := by
    cases pre <;> simp
  have herr := processItems_foreign s rest.restaurantId bad post mid hq hbad
    hforeign pre 0 acc hpre
  rw [Nat.zero_add] at herr
  refine ⟨?_, rfl⟩
  simp only [sqlPlaceOrder, if_neg hce, if_neg hrn, hitems, Bool.false_eq_true,
    if_false, hcust, hrest, herr]

/-- C8: In MigrateSnapshot, every person row that is both a customer and
a rider is written to the people collection with type "rider" (rider
wins the discriminator) while both the customer and rider sub-documents
are populated; consequently document-mode PlaceOrder, which looks
customers up with type "customer", fails NotFound for such a person's
email. -/
theorem claim8_dual_role_person_becomes_rider
    (s : SqlState) (m : MongoState) (tmig now : Nat) (p : PersonRow)
    (rn : String) (items : List MongoItemReq)
    (hmem : p ∈ s.persons)
    (hcust : ∃ c ∈ s.customers, c.customerId = p.personId)
    (hrid : ∃ r ∈ s.riders, r.riderId = p.personId)
    (hemails : (s.persons.map (fun q => q.email)).Nodup)
    (hpe : p.email ≠ "") (hrn : rn ≠ "") (hitems : items.isEmpty = false) :
    (∃ doc ∈ (migrateSqlToMongo m s tmig).people,
      doc.personId = p.personId ∧ doc.type = "rider" ∧
      doc.customer.isSome ∧ doc.rider.isSome) ∧
    mongoPlaceOrder (migrateSqlToMongo m s tmig) p.email rn items now =
      Except.error (ApiErr.notFound "customer not found") := by
  have hcfind : (s.customers.find? (fun c => c.customerId = p.personId)).isSome := by
    rw [List.find?_isSome]
    obtain ⟨c, hc, hck⟩ := hcust
    exact ⟨c, hc, by simp [hck]⟩
  have hrfind : (s.riders.find? (fun r => r.riderId = p.personId)).isSome := by
    rw [List.find?_isSome]
    obtain ⟨r, hr, hrk⟩ := hrid
    exact ⟨r, hr, by simp [hrk]⟩
  have hsortmem : p ∈ sortByKey (fun q => q.personId) s.persons :=
    (List.perm_insertionSort _ _).mem_iff.mpr hmem
  have hdoctype : (personDocOfRow s p).type = "rider" := by
    simp only [personDocOfRow]
    rw [if_pos hrfind]
  constructor
  · refine ⟨personDocOfRow s p, List.mem_map.mpr ⟨p, hsortmem, rfl⟩, rfl,
      hdoctype, ?_, ?_⟩
    · simp only [personDocOfRow]
      obtain ⟨c, hc⟩ := Option.isSome_iff_exists.mp hcfind
      simp [hc]
    · simp only [personDocOfRow]
      obtain ⟨r, hr⟩ := Option.isSome_iff_exists.mp hrfind
      simp [hr]
  · have hfindnone : (migrateSqlToMongo m s tmig).people.find?
        (fun q => q.type = "customer" && q.email = p.email) = none := by
      rw [List.find?_eq_none]
      intro q hq
      simp only [Bool.and_eq_true, decide_eq_true_eq, not_and]
      intro hqtype hqemail
      obtain ⟨p', hp', hpq⟩ := List.mem_map.mp hq
      have hp'mem : p' ∈ s.persons :=
        (List.perm_insertionSort _ _).mem_iff.mp hp'
      have hpe' : p' = p := by
        refine eq_of_mem_nodup_key (fun x : PersonRow => x.email) p s.persons
          hemails hmem p' hp'mem ?_
        have hqe : p'.email = q.email := by
          rw [← hpq]
          rfl
        exact hqe.trans hqemail
      rw [← hpq, hpe'] at hqtype
      rw [hdoctype] at hqtype
      exact absurd hqtype (by decide)
    simp only [mongoPlaceOrder, if_neg hpe, if_neg hrn, hitems,
      Bool.false_eq_true, if_false, hfindnone]

/-! ## Aggregation machinery for the report-equivalence claim -/

/-- Under a unique key column, a keyed filter is the singleton (or empty)
list of the keyed `find?`. -/
theorem filter_eq_find?_toList {α κ : Type} [DecidableEq κ] (key : α → κ) (k : κ) :
    ∀ l : List α, (l.map key).Nodup →
      l.filter (fun x => key x = k) = (l.find? (fun x => key x = k)).toList
  | [], _ => rfl
  | a :: l, hnd => by
      simp only [List.map_cons, List.nodup_cons] at hnd
      by_cases ha : key a = k
      · have : l.filter (fun x => key x = k) = [] := by
          rw [List.filter_eq_nil_iff]
          intro x hx
          simp only [decide_eq_true_eq]
          intro hk
          exact hnd.1 (List.mem_map.mpr ⟨x, hx, hk.trans ha.symm⟩)
        simp [List.filter_cons, List.find?_cons, ha, this]
      · simp only [List.filter_cons, List.find?_cons]
        have hdec : (decide (key a = k)) = false := by simp [ha]
        rw [hdec]
        simp only [if_false]
        exact filter_eq_find?_toList key k l hnd.2

/-- Under a unique key column, `find?` at a member's key returns that
member. -/
theorem find?_eq_of_mem_nodup {α κ : Type} [DecidableEq κ] (key : α → κ)
    (x : α) (l : List α) (hnd : (l.map key).Nodup) (hmem : x ∈ l) :
    l.find? (fun y => key y = key x) = some x := by
  have hsome : (l.find? (fun y => key y = key x)).isSome := by
    rw [List.find?_isSome]
    exact ⟨x, hmem, by simp⟩
  obtain ⟨y, hy⟩ := Option.isSome_iff_exists.mp hsome
  have hymem := List.mem_of_find?_eq_some hy
  have hyk : key y = key x := by simpa using List.find?_some hy
  rw [hy, eq_of_mem_nodup_key key x l hnd hmem y hymem hyk]

/-- `dedup` commutes with a map that is injective on the list. -/
theorem dedup_map_of_inj_on {κ1 κ2 : Type} [DecidableEq κ1] [DecidableEq κ2]
    (φ : κ1 → κ2) :
    ∀ l : List κ1, (∀ a ∈ l, ∀ b ∈ l, φ a = φ b → a = b) →
      (l.map φ).dedup = l.dedup.map φ
  | [], _ => rfl
  | a :: l, hinj => by
      have hmemiff : φ a ∈ l.map φ ↔ a ∈ l := by
        constructor
        · intro hm
          obtain ⟨b, hb, hba⟩ := List.mem_map.mp hm
          exact hinj a (List.mem_cons_self a l) b (List.mem_cons_of_mem a hb)
            hba.symm ▸ hb
        · intro hm
          exact List.mem_map.mpr ⟨a, hm, rfl⟩
      have ih := dedup_map_of_inj_on φ l (fun x hx y hy =>
        hinj x (List.mem_cons_of_mem a hx) y (List.mem_cons_of_mem a hy))
      by_cases hm : a ∈ l
      · rw [List.map_cons, List.dedup_cons_of_mem (hmemiff.mpr hm),
          List.dedup_cons_of_mem hm, ih]
      · rw [List.map_cons, List.dedup_cons_of_not_mem (fun hc => hm (hmemiff.mp hc)),
          List.dedup_cons_of_not_mem hm, List.map_cons, ih]

/-- GROUP BY transport along an element map `g` that translates the
grouping key through an injective `φ` and preserves the aggregate. -/
theorem groupAgg_map_transport {α β κ1 κ2 μ : Type} [DecidableEq κ1]
    [DecidableEq κ2] (g : α → β) (key2 : β → κ2) (key1 : α → κ1) (φ : κ1 → κ2)
    (agg2 : List β → μ) (agg1 : List α → μ) (l : List α)
    (hkey : ∀ a ∈ l, key2 (g a) = φ (key1 a))
    (hinj : ∀ a ∈ l, ∀ b ∈ l, φ (key1 a) = φ (key1 b) → key1 a = key1 b)
    (hagg : ∀ sub : List α, sub.Sublist l → agg2 (sub.map g) = agg1 sub) :
    groupAgg key2 agg2 (l.map g) =
      (groupAgg key1 agg1 l).map (fun kv => (φ kv.1, kv.2)) := by
  have hkeys : ((l.map g).map key2).dedup = ((l.map key1).dedup).map φ := by
    rw [List.map_map]
    have h1 : l.map (key2 ∘ g) = (l.map key1).map φ := by
      rw [List.map_map]
      exact List.map_congr_left hkey
    rw [h1]
    apply dedup_map_of_inj_on
    intro a ha b hb
    obtain ⟨xa, hxa, rfl⟩ := List.mem_map.mp ha
    obtain ⟨xb, hxb, rfl⟩ := List.mem_map.mp hb
    exact hinj xa hxa xb hxb
  unfold groupAgg
  rw [hkeys, List.map_map, List.map_map]
  apply List.map_congr_left
  intro k hk
  obtain ⟨a0, ha0, ha0k⟩ := List.mem_map.mp (List.mem_dedup.mp hk)
  have hfil : (l.map g).filter (fun b => key2 b = φ k) =
      (l.filter (fun a => key1 a = k)).map g := by
    rw [List.filter_map]
    congr 1
    apply List.filter_congr
    intro a ha
    simp only [Function.comp_apply, hkey a ha]
    by_cases hak : key1 a = k
    · simp [hak]
    · have hne : ¬ φ (key1 a) = φ k := by
        intro hc
        have hc0 : φ (key1 a) = φ (key1 a0) := by
          rw [ha0k]
          exact hc
        exact hak ((hinj a ha a0 ha0 hc0).trans ha0k)
      simp [hne, hak]
  simp only [Function.comp_apply, hfil,
    hagg (l.filter (fun a => key1 a = k)) (List.filter_sublist l)]

/-- GROUP BY of permuted inputs yields permuted groups with equal
aggregates (the aggregate must be permutation-invariant). -/
theorem groupAgg_perm {α κ μ : Type} [DecidableEq κ] (key : α → κ)
    (agg : List α → μ)
    (hagg : ∀ l1 l2 : List α, l1.Perm l2 → agg l1 = agg l2)
    {l1 l2 : List α} (h : l1.Perm l2) :
    (groupAgg key agg l1).Perm (groupAgg key agg l2) := by
  unfold groupAgg
  have hfun : (fun k => (k, agg (l1.filter (fun a => key a = k)))) =
      (fun k => (k, agg (l2.filter (fun a => key a = k)))) := by
    funext k
    rw [hagg _ _ (h.filter _)]
  rw [hfun]
  exact ((h.map key).dedup).map _

/-- Sorting by an injective sort key is invariant under permutation of
the input (the deterministic tie-break makes the output unique). -/
theorem sortBy_eq_of_perm {α κ : Type} [LinearOrder κ] (f : α → κ)
    (hinj : ∀ a b, f a = f b → a = b) {l1 l2 : List α} (h : l1.Perm l2) :
    sortBy f l1 = sortBy f l2 := by
  haveI : IsTotal α (fun a b => f a ≤ f b) := ⟨fun a b => le_total (f a) (f b)⟩
  haveI : IsTrans α (fun a b => f a ≤ f b) := ⟨fun _ _ _ hab hbc => le_trans hab hbc⟩
  haveI : IsAntisymm α (fun a b => f a ≤ f b) :=
    ⟨fun a b hab hba => hinj a b (le_antisymm hab hba)⟩
  exact List.eq_of_perm_of_sorted
    (((List.perm_insertionSort _ l1).trans h).trans
      (List.perm_insertionSort _ l2).symm)
    (List.sorted_insertionSort _ l1) (List.sorted_insertionSort _ l2)

/-- A flatMap producing singletons is a map. -/
theorem flatMap_singleton_map {α β : Type} (f : α → β) :
    ∀ l : List α, (l.flatMap (fun a => [f a])) = l.map f
  | [] => rfl
  | a :: l => by
      simp only [List.flatMap_cons, List.map_cons, List.singleton_append,
        List.cons.injEq, true_and]
      exact flatMap_singleton_map f l

/-- Under the restaurant PK and the unique restaurant-name index, the SQL
report's restaurant-name join filter is the canonical per-order match. -/
theorem sqlFilteredOrders_eq_filter (s : SqlState) (q : ReportQuery)
    (hRid : (s.restaurants.map (fun r => r.restaurantId)).Nodup)
    (hRname : (s.restaurants.map (fun r => r.name)).Nodup) :
    sqlFilteredOrders s q = s.orders.filter (orderMatches s q) := by
  unfold sqlFilteredOrders
  rw [filter_eq_find?_toList (fun r : RestaurantRow => r.name)
    q.restaurantName s.restaurants hRname]
  cases hfound : s.restaurants.find? (fun r => r.name = q.restaurantName) with
  | none =>
      simp only [Option.toList_none, List.flatMap_nil]
      symm
      rw [List.filter_eq_nil_iff]
      intro o _
      unfold orderMatches
      rw [List.find?_eq_none] at hfound
      cases hr : s.restaurants.find?
          (fun r => r.restaurantId = o.restaurantId) with
      | none => simp [hr]
      | some r' =>
          have hr'mem := List.mem_of_find?_eq_some hr
          have : ¬ r'.name = q.restaurantName := by
            simpa using hfound r' hr'mem
          simp [hr, this]
  | some r =>
      have hrmem := List.mem_of_find?_eq_some hfound
      have hrname : r.name = q.restaurantName := by
        simpa using List.find?_some hfound
      simp only [Option.toList_some, List.flatMap_cons, List.flatMap_nil,
        List.append_nil]
      apply List.filter_congr
      intro o _
      unfold orderMatches
      by_cases hid : o.restaurantId = r.restaurantId
      · have hfid : s.restaurants.find?
            (fun x => x.restaurantId = r.restaurantId) = some r :=
          find?_eq_of_mem_nodup (fun x : RestaurantRow => x.restaurantId)
            r s.restaurants hRid hrmem
        simp [hid, hfid, hrname]
      · have hnm : ¬ ((s.restaurants.find?
            (fun x => x.restaurantId = o.restaurantId)).map
              (fun x => x.name) = some q.restaurantName) := by
          intro hc
          rw [Option.map_eq_some'] at hc
          obtain ⟨r'', hr2, hcname⟩ := hc
          have hr2mem := List.mem_of_find?_eq_some hr2
          have hr2id : r''.restaurantId = o.restaurantId := by
            simpa using List.find?_some hr2
          have : r'' = r := eq_of_mem_nodup_key
            (fun x : RestaurantRow => x.name) r s.restaurants hRname hrmem
            r'' hr2mem (hcname.trans hrname.symm)
          exact hid (hr2id ▸ congrArg (fun x => x.restaurantId) this)
        simp [hid, hnm]

/-- The Mongo report's `$match` over migrated documents is the canonical
per-order match, mapped through the document transform. -/
theorem mongoFilteredOrders_migrated (s : SqlState) (m : MongoState)
    (t : Nat) (q : ReportQuery) :
    mongoFilteredOrders (migrateSqlToMongo m s t) q =
      ((sortByKey (fun o => o.orderId) s.orders).filter
        (orderMatches s q)).map (orderDocOfRow s) := by
  unfold mongoFilteredOrders migrateSqlToMongo readSqlSnapshot
  simp only
  rw [List.filter_map]
  congr 1
  apply List.filter_congr
  intro o _
  unfold orderMatches orderDocOfRow
  simp [Option.map_map, Function.comp]

/-- Under the unique payment.order_id column, the summary's LEFT JOIN
produces exactly one row per order carrying the order's payment lookup. -/
theorem sqlSummaryRows_collapse (s : SqlState) (q : ReportQuery)
    (hPayOid : (s.payments.map (fun p => p.orderId)).Nodup) :
    sqlSummaryRows s q = (sqlFilteredOrders s q).map (fun o =>
      (o, s.payments.find? (fun p => p.orderId = o.orderId))) := by
  unfold sqlSummaryRows
  rw [← flatMap_singleton_map (fun o => (o,
    s.payments.find? (fun p => p.orderId = o.orderId))) (sqlFilteredOrders s q)]
  apply List.flatMap_congr
  intro o _
  rw [filter_eq_find?_toList (fun p : PaymentRow => p.orderId) o.orderId
    s.payments hPayOid]
  cases hp : s.payments.find? (fun p => p.orderId = o.orderId) with
  | none => simp
  | some p => simp

/-- The migrated document's paid test agrees with the relational one. -/
theorem docPaid_migrated (s : SqlState) (o : OrderRow) :
    docPaid (orderDocOfRow s o) =
      ((s.payments.find? (fun p => p.orderId = o.orderId)).bind
        (fun p => p.paidAt)).isSome := by
  unfold docPaid orderDocOfRow
  cases hp : s.payments.find? (fun p => p.orderId = o.orderId) <;> simp [hp]

/-- The migrated order document's payment sub-document, unfolded. -/
theorem orderDoc_payment (s : SqlState) (o : OrderRow) :
    (orderDocOfRow s o).payment =
      (s.payments.find? (fun p => p.orderId = o.orderId)).map
        (fun p => { paymentId := some p.paymentId, amountCents := p.amountCents,
                    method := p.method, paidAt := p.paidAt }) := rfl

/-- The migrated order document's item array, unfolded. -/
theorem orderDoc_items (s : SqlState) (o : OrderRow) :
    (orderDocOfRow s o).orderItems = orderItemDocsFor s o.orderId := rfl

/-- A conjunctive filter is two successive filters. -/
theorem filter_and {α : Type} (p q : α → Bool) :
    ∀ l : List α, l.filter (fun a => p a && q a) = (l.filter p).filter q
  | [] => rfl
  | a :: l => by
      cases hp : p a <;> cases hq : q a <;>
        simp [List.filter_cons, hp, hq, filter_and p q l]

/-- A flatMap whose blocks are guarded singletons is a filter-then-map. -/
theorem flatMap_guard_map {α β : Type} (p : α → Bool) (k : α → β)
    (h : α → List β) (hh : ∀ a, h a = if p a then [k a] else []) :
    ∀ l : List α, l.flatMap h = (l.filter p).map k
  | [] => rfl
  | a :: l => by
      rw [List.flatMap_cons, List.filter_cons, hh a,
        flatMap_guard_map p k h hh l]
      by_cases hp : p a
      · simp [hp]
      · simp [hp]

/-- Under the unique payment.order_id column, the byPaymentMethod JOIN
produces exactly the paid filtered orders, each carrying its unique
payment row. -/
theorem sqlPaymentRows_collapse (s : SqlState) (q : ReportQuery)
    (hPayOid : (s.payments.map (fun p => p.orderId)).Nodup) :
    sqlPaymentRows s q =
      ((sqlFilteredOrders s q).filter (fun o =>
          ((s.payments.find? (fun p => p.orderId = o.orderId)).bind
            (fun p => p.paidAt)).isSome)).map (fun o =>
        (o, (s.payments.find? (fun p => p.orderId = o.orderId)).getD
          dummyPayment)) := by
  unfold sqlPaymentRows
  apply flatMap_guard_map
  intro o
  rw [filter_and (fun p => p.orderId = o.orderId) (fun p => p.paidAt.isSome)
    s.payments]
  rw [filter_eq_find?_toList (fun p : PaymentRow => p.orderId) o.orderId
    s.payments hPayOid]
  cases hp : s.payments.find? (fun p => p.orderId = o.orderId) with
  | none => simp
  | some p =>
      cases hpa : p.paidAt with
      | none => simp [List.filter_cons, hpa]
      | some tt => simp [List.filter_cons, hpa]

/-- flatMap respects permutation of the outer list and pointwise
permutation of the blocks. -/
theorem perm_flatMap {α β : Type} (f g : α → List β)
    (hfg : ∀ a, (f a).Perm (g a)) :
    ∀ {l1 l2 : List α}, l1.Perm l2 → (l1.flatMap f).Perm (l2.flatMap g) := by
  intro l1 l2 h
  have h2 : (l1.flatMap g).Perm (l2.flatMap g) := by
    induction h with
    | nil => exact List.Perm.refl _
    | cons a h ih =>
        rw [List.flatMap_cons, List.flatMap_cons]
        exact List.Perm.append_left _ ih
    | swap a b l =>
        rw [List.flatMap_cons, List.flatMap_cons, List.flatMap_cons,
          List.flatMap_cons, ← List.append_assoc, ← List.append_assoc]
        exact List.Perm.append_right _ List.perm_append_comm
    | trans hx hy ihx ihy => exact ihx.trans ihy
  have h1 : (l1.flatMap f).Perm (l1.flatMap g) := by
    clear h h2
    induction l1 with
    | nil => exact List.Perm.refl _
    | cons a l ih =>
        rw [List.flatMap_cons, List.flatMap_cons]
        exact (hfg a).append ih
  exact h1.trans h2

/-- The optional-string sort-key encoding is injective. -/
theorem encOptStr_inj : ∀ x y : Option String,
    encOptStr x = encOptStr y → x = y := by
  intro x y h
  cases x <;> cases y <;> simp only [encOptStr] at h
  · rfl
  · have h1 : (0 : ℕ) = 1 := congrArg (fun p : ℕ × String => p.1) h
    exact absurd h1 (by decide)
  · have h1 : (1 : ℕ) = 0 := congrArg (fun p : ℕ × String => p.1) h
    exact absurd h1 (by decide)
  · exact congrArg some (congrArg (fun p : ℕ × String => p.2) h)

/-- The byStatus sort key is injective. -/
theorem statusKey_inj : ∀ a b : StatusRow, statusKey a = statusKey b → a = b := by
  intro a b h
  have h0 : ((OrderDual.toDual a.count, a.status) : ℕᵒᵈ × String) =
      (OrderDual.toDual b.count, b.status) := h
  have h1 : a.count = b.count :=
    congrArg (fun p : ℕᵒᵈ × String => OrderDual.ofDual p.1) h0
  have h2 : a.status = b.status := congrArg (fun p => p.2) h0
  cases a; cases b
  simp only [StatusRow.mk.injEq]
  exact ⟨h2, h1⟩

/-- The byDay sort key is injective. -/
theorem dayKey_inj : ∀ a b : DayRow, dayKey a = dayKey b → a = b := by
  intro a b h
  have h0 : ((OrderDual.toDual a.date, (a.orders, a.revenueCents)) :
      ℕᵒᵈ × (ℕ × ℕ)) =
      (OrderDual.toDual b.date, (b.orders, b.revenueCents)) := h
  have h1 : a.date = b.date :=
    congrArg (fun p : ℕᵒᵈ × (ℕ × ℕ) => OrderDual.ofDual p.1) h0
  have h2 : a.orders = b.orders := congrArg (fun p => p.2.1) h0
  have h3 : a.revenueCents = b.revenueCents := congrArg (fun p => p.2.2) h0
  cases a; cases b
  simp only [DayRow.mk.injEq]
  exact ⟨h1, h2, h3⟩

/-- The byPaymentMethod sort key is injective. -/
theorem methodKey_inj : ∀ a b : MethodRow,
    methodKey a = methodKey b → a = b := by
  intro a b h
  have h0 : ((OrderDual.toDual a.totalCents, (a.method, a.count)) :
      ℕᵒᵈ × (String × ℕ)) =
      (OrderDual.toDual b.totalCents, (b.method, b.count)) := h
  have h1 : a.totalCents = b.totalCents :=
    congrArg (fun p : ℕᵒᵈ × (String × ℕ) => OrderDual.ofDual p.1) h0
  have h2 : a.method = b.method := congrArg (fun p => p.2.1) h0
  have h3 : a.count = b.count := congrArg (fun p => p.2.2) h0
  cases a; cases b
  simp only [MethodRow.mk.injEq]
  exact ⟨h2, h3, h1⟩

/-- The topItems sort key is injective. -/
theorem topItemKey_inj : ∀ a b : TopItemRow,
    topItemKey a = topItemKey b → a = b := by
  intro a b h
  have h0 : ((OrderDual.toDual a.totalQuantity,
      (encOptStr a.itemName, a.totalRevenueCents)) :
      ℕᵒᵈ × ((ℕ × String) × ℕ)) =
      (OrderDual.toDual b.totalQuantity,
       (encOptStr b.itemName, b.totalRevenueCents)) := h
  have h1 : a.totalQuantity = b.totalQuantity :=
    congrArg (fun p : ℕᵒᵈ × ((ℕ × String) × ℕ) => OrderDual.ofDual p.1) h0
  have h2 : a.itemName = b.itemName :=
    encOptStr_inj a.itemName b.itemName (congrArg (fun p => p.2.1) h0)
  have h3 : a.totalRevenueCents = b.totalRevenueCents :=
    congrArg (fun p => p.2.2) h0
  cases a; cases b
  simp only [TopItemRow.mk.injEq]
  exact ⟨h2, h1, h3⟩

/-- Under the menu primary key and the order-item foreign key, the
topItems JOIN carries each order item exactly once, paired with its
unique menu row. -/
theorem sqlTopItemJoinRows_collapse (s : SqlState) (q : ReportQuery)
    (hMid : (s.menuItems.map (fun m => m.menuItemId)).Nodup)
    (hFK : ∀ oi ∈ s.orderItems, ∃ mi ∈ s.menuItems,
      mi.menuItemId = oi.menuItemId) :
    sqlTopItemJoinRows s q =
      ((sqlFilteredOrders s q).flatMap (fun o =>
          s.orderItems.filter (fun oi => oi.orderId = o.orderId))).map
        (fun oi => (oi, (s.menuItems.find?
          (fun m => m.menuItemId = oi.menuItemId)).getD dummyMenu)) := by
  unfold sqlTopItemJoinRows
  rw [List.map_flatMap]
  apply List.flatMap_congr
  intro o _
  rw [← flatMap_singleton_map (fun oi => (oi, (s.menuItems.find?
    (fun m => m.menuItemId = oi.menuItemId)).getD dummyMenu))
    (s.orderItems.filter (fun oi => oi.orderId = o.orderId))]
  apply List.flatMap_congr
  intro oi hoi
  have hoimem : oi ∈ s.orderItems := (List.mem_filter.mp hoi).1
  obtain ⟨mi, hmimem, hmi⟩ := hFK oi hoimem
  have hfm : s.menuItems.find? (fun m => m.menuItemId = oi.menuItemId) =
      some mi := by
    have h0 : s.menuItems.find? (fun y => y.menuItemId = mi.menuItemId) =
        some mi :=
      find?_eq_of_mem_nodup (fun m : MenuItemRow => m.menuItemId)
        mi s.menuItems hMid hmimem
    rw [hmi] at h0
    exact h0
  rw [filter_eq_find?_toList (fun m : MenuItemRow => m.menuItemId)
    oi.menuItemId s.menuItems hMid, hfm]
  simp

/-- Post-migration, the summary KPIs of the two report variants agree. -/
theorem report_summary_eq (s : SqlState) (m : MongoState) (t : Nat)
    (q : ReportQuery)
    (hRid : (s.restaurants.map (fun r => r.restaurantId)).Nodup)
    (hRname : (s.restaurants.map (fun r => r.name)).Nodup)
    (hPayOid : (s.payments.map (fun p => p.orderId)).Nodup) :
    mongoReportSummary (migrateSqlToMongo m s t) q = sqlReportSummary s q := by
  have hperm : ((sortByKey (fun o => o.orderId) s.orders).filter
      (orderMatches s q)).Perm (s.orders.filter (orderMatches s q)) :=
    (List.perm_insertionSort _ s.orders).filter _
  have hm : ∀ a b c d e f g h : Nat, a = e → b = f → c = g → d = h →
      mkSummary a b c d = mkSummary e f g h := by
    intro a b c d e f g h h1 h2 h3 h4
    rw [h1, h2, h3, h4]
  simp only [mongoReportSummary, sqlReportSummary]
  rw [mongoFilteredOrders_migrated, sqlSummaryRows_collapse s q hPayOid,
    sqlFilteredOrders_eq_filter s q hRid hRname]
  apply hm
  · rw [List.length_map, List.length_map]
    exact hperm.length_eq
  · rw [List.map_map, List.map_map]
    exact (hperm.map (fun o : OrderRow => o.totalAmountCents)).sum_eq
  · rw [List.countP_map, List.countP_map]
    refine Eq.trans (List.countP_congr ?_) (hperm.countP_eq _)
    intro o _
    simp only [Function.comp_apply]
    rw [docPaid_migrated s o]
  · rw [List.countP_map, List.countP_map]
    refine Eq.trans (List.countP_congr ?_) (hperm.countP_eq _)
    intro o _
    simp only [Function.comp_apply]
    rw [Bool.not_eq_true', docPaid_migrated s o]
    cases (s.payments.find? (fun p => p.orderId = o.orderId)).bind
      (fun p => p.paidAt) <;> simp

/-- The migrated payment method (with `$getD`/`$ifNull` default) agrees
with the SQL lookup's method. -/
theorem orderDoc_pay_method (s : SqlState) (o : OrderRow) :
    ((orderDocOfRow s o).payment.map (fun p => p.method)).getD "" =
      ((s.payments.find? (fun p => p.orderId = o.orderId)).getD
        dummyPayment).method := by
  rw [orderDoc_payment s o]
  cases s.payments.find? (fun p => p.orderId = o.orderId) <;> rfl

/-- The migrated payment amount (with default 0) agrees with the SQL
lookup's amount. -/
theorem orderDoc_pay_amount (s : SqlState) (o : OrderRow) :
    ((orderDocOfRow s o).payment.map (fun p => p.amountCents)).getD 0 =
      ((s.payments.find? (fun p => p.orderId = o.orderId)).getD
        dummyPayment).amountCents := by
  rw [orderDoc_payment s o]
  cases s.payments.find? (fun p => p.orderId = o.orderId) <;> rfl

/-- The menu lookup of an order item returns the FK-guaranteed row. -/
theorem findMenu_of_FK (s : SqlState)
    (hMid : (s.menuItems.map (fun m => m.menuItemId)).Nodup)
    (oi : OrderItemRow) (mi : MenuItemRow) (hmimem : mi ∈ s.menuItems)
    (hmi : mi.menuItemId = oi.menuItemId) :
    s.menuItems.find? (fun m => m.menuItemId = oi.menuItemId) = some mi := by
  have h0 : s.menuItems.find? (fun y => y.menuItemId = mi.menuItemId) =
      some mi :=
    find?_eq_of_mem_nodup (fun m : MenuItemRow => m.menuItemId)
      mi s.menuItems hMid hmimem
  rw [hmi] at h0
  exact h0

/-- Post-migration, the by-status breakdowns of the two variants agree. -/
theorem report_byStatus_eq (s : SqlState) (m : MongoState) (t : Nat)
    (q : ReportQuery)
    (hRid : (s.restaurants.map (fun r => r.restaurantId)).Nodup)
    (hRname : (s.restaurants.map (fun r => r.name)).Nodup) :
    mongoByStatus (migrateSqlToMongo m s t) q = sqlByStatus s q := by
  have hperm : ((sortByKey (fun o => o.orderId) s.orders).filter
      (orderMatches s q)).Perm (s.orders.filter (orderMatches s q)) :=
    (List.perm_insertionSort _ s.orders).filter _
  unfold mongoByStatus sqlByStatus
  rw [mongoFilteredOrders_migrated, sqlFilteredOrders_eq_filter s q hRid hRname]
  rw [groupAgg_map_transport (orderDocOfRow s) (fun d => d.status)
    (fun o => o.status) (fun x : String => x) List.length List.length
    ((sortByKey (fun o => o.orderId) s.orders).filter (orderMatches s q))
    (fun a _ => rfl) (fun a _ b _ h => h) (fun sub _ => by
      rw [List.length_map])]
  have hid1 : (fun kv : String × Nat => ((fun x : String => x) kv.1, kv.2)) =
      id := funext (fun kv => rfl)
  rw [hid1, List.map_id]
  apply sortBy_eq_of_perm statusKey statusKey_inj
  exact (groupAgg_perm (fun o : OrderRow => o.status) List.length
    (fun l1 l2 hp => hp.length_eq) hperm).map _

/-- Post-migration, the by-day breakdowns of the two variants agree. -/
theorem report_byDay_eq (s : SqlState) (m : MongoState) (t : Nat)
    (q : ReportQuery)
    (hRid : (s.restaurants.map (fun r => r.restaurantId)).Nodup)
    (hRname : (s.restaurants.map (fun r => r.name)).Nodup) :
    mongoByDay (migrateSqlToMongo m s t) q = sqlByDay s q := by
  have hperm : ((sortByKey (fun o => o.orderId) s.orders).filter
      (orderMatches s q)).Perm (s.orders.filter (orderMatches s q)) :=
    (List.perm_insertionSort _ s.orders).filter _
  unfold mongoByDay sqlByDay
  rw [mongoFilteredOrders_migrated, sqlFilteredOrders_eq_filter s q hRid hRname]
  refine congrArg (fun l => List.take 30 l) ?_
  rw [groupAgg_map_transport (orderDocOfRow s) (fun d => dayOf d.createdAt)
    (fun o => dayOf o.createdAt) (fun x : Nat => x)
    (fun l => (l.length, (l.map (fun d => d.totalAmountCents)).sum))
    (fun l => (l.length, (l.map (fun o => o.totalAmountCents)).sum))
    ((sortByKey (fun o => o.orderId) s.orders).filter (orderMatches s q))
    (fun a _ => rfl) (fun a _ b _ h => h) (fun sub _ => by
      simp only [List.length_map, List.map_map]
      rfl)]
  have hid2 : (fun kv : Nat × (Nat × Nat) => ((fun x : Nat => x) kv.1, kv.2)) =
      id := funext (fun kv => rfl)
  rw [hid2, List.map_id]
  apply sortBy_eq_of_perm dayKey dayKey_inj
  exact (groupAgg_perm (fun o : OrderRow => dayOf o.createdAt)
    (fun l => (l.length, (l.map (fun o : OrderRow => o.totalAmountCents)).sum))
    (fun l1 l2 hp => by
      show (l1.length, (l1.map (fun o : OrderRow => o.totalAmountCents)).sum) =
        (l2.length, (l2.map (fun o : OrderRow => o.totalAmountCents)).sum)
      rw [hp.length_eq,
        (hp.map (fun o : OrderRow => o.totalAmountCents)).sum_eq])
    hperm).map _

/-- Post-migration, the by-payment-method breakdowns of the two
variants agree. -/
theorem report_byMethod_eq (s : SqlState) (m : MongoState) (t : Nat)
    (q : ReportQuery)
    (hRid : (s.restaurants.map (fun r => r.restaurantId)).Nodup)
    (hRname : (s.restaurants.map (fun r => r.name)).Nodup)
    (hPayOid : (s.payments.map (fun p => p.orderId)).Nodup) :
    mongoByPaymentMethod (migrateSqlToMongo m s t) q =
      sqlByPaymentMethod s q := by
  have hperm : ((sortByKey (fun o => o.orderId) s.orders).filter
      (orderMatches s q)).Perm (s.orders.filter (orderMatches s q)) :=
    (List.perm_insertionSort _ s.orders).filter _
  unfold mongoByPaymentMethod sqlByPaymentMethod
  rw [mongoFilteredOrders_migrated, sqlPaymentRows_collapse s q hPayOid,
    sqlFilteredOrders_eq_filter s q hRid hRname, List.filter_map]
  rw [show ((sortByKey (fun o => o.orderId) s.orders).filter
        (orderMatches s q)).filter (docPaid ∘ orderDocOfRow s) =
      ((sortByKey (fun o => o.orderId) s.orders).filter
        (orderMatches s q)).filter (fun o =>
          ((s.payments.find? (fun p => p.orderId = o.orderId)).bind
            (fun p => p.paidAt)).isSome) from
    List.filter_congr (fun o _ => by
      simp only [Function.comp_apply]
      exact docPaid_migrated s o)]
  rw [groupAgg_map_transport (orderDocOfRow s)
    (fun d => (d.payment.map (fun p => p.method)).getD "")
    (fun o => ((s.payments.find? (fun p => p.orderId = o.orderId)).getD
      dummyPayment).method)
    (fun x : String => x)
    (fun l => (l.length, (l.map (fun d =>
      (d.payment.map (fun p => p.amountCents)).getD 0)).sum))
    (fun l => (l.length, (l.map (fun o =>
      ((s.payments.find? (fun p => p.orderId = o.orderId)).getD
        dummyPayment).amountCents)).sum))
    (((sortByKey (fun o => o.orderId) s.orders).filter
      (orderMatches s q)).filter (fun o =>
        ((s.payments.find? (fun p => p.orderId = o.orderId)).bind
          (fun p => p.paidAt)).isSome))
    (fun o _ => orderDoc_pay_method s o)
    (fun a _ b _ h => h)
    (fun sub _ => by
      simp only [List.length_map, List.map_map]
      refine congrArg (fun z => (sub.length, z)) ?_
      refine congrArg List.sum ?_
      exact List.map_congr_left (fun o _ => orderDoc_pay_amount s o))]
  rw [groupAgg_map_transport
    (fun o => (o, (s.payments.find? (fun p => p.orderId = o.orderId)).getD
      dummyPayment))
    (fun r => r.2.method)
    (fun o => ((s.payments.find? (fun p => p.orderId = o.orderId)).getD
      dummyPayment).method)
    (fun x : String => x)
    (fun l => (l.length, (l.map (fun r => r.2.amountCents)).sum))
    (fun l => (l.length, (l.map (fun o =>
      ((s.payments.find? (fun p => p.orderId = o.orderId)).getD
        dummyPayment).amountCents)).sum))
    ((s.orders.filter (orderMatches s q)).filter (fun o =>
      ((s.payments.find? (fun p => p.orderId = o.orderId)).bind
        (fun p => p.paidAt)).isSome))
    (fun o _ => rfl)
    (fun a _ b _ h => h)
    (fun sub _ => by
      simp only [List.length_map, List.map_map]
      rfl)]
  have hid3 : (fun kv : String × (Nat × Nat) =>
      ((fun x : String => x) kv.1, kv.2)) = id := funext (fun kv => rfl)
  rw [hid3, List.map_id, List.map_id]
  apply sortBy_eq_of_perm methodKey methodKey_inj
  exact (groupAgg_perm _ _
    (fun l1 l2 hp => by
      show (l1.length, (l1.map (fun o : OrderRow =>
          ((s.payments.find? (fun p => p.orderId = o.orderId)).getD
            dummyPayment).amountCents)).sum) =
        (l2.length, (l2.map (fun o : OrderRow =>
          ((s.payments.find? (fun p => p.orderId = o.orderId)).getD
            dummyPayment).amountCents)).sum)
      rw [hp.length_eq, (hp.map (fun o : OrderRow =>
        ((s.payments.find? (fun p => p.orderId = o.orderId)).getD
          dummyPayment).amountCents)).sum_eq])
    (hperm.filter _)).map _

/-- Post-migration, and provided no two menu rows share a name, the
top-items breakdowns of the two variants agree. -/
theorem report_topItems_eq (s : SqlState) (m : MongoState) (t : Nat)
    (q : ReportQuery)
    (hRid : (s.restaurants.map (fun r => r.restaurantId)).Nodup)
    (hRname : (s.restaurants.map (fun r => r.name)).Nodup)
    (hMid : (s.menuItems.map (fun mi => mi.menuItemId)).Nodup)
    (hFK : ∀ oi ∈ s.orderItems, ∃ mi ∈ s.menuItems,
      mi.menuItemId = oi.menuItemId)
    (hMname : ∀ m1 ∈ s.menuItems, ∀ m2 ∈ s.menuItems,
      m1.name = m2.name → m1 = m2) :
    mongoTopItems (migrateSqlToMongo m s t) q = sqlTopItems s q := by
  have hperm : ((sortByKey (fun o => o.orderId) s.orders).filter
      (orderMatches s q)).Perm (s.orders.filter (orderMatches s q)) :=
    (List.perm_insertionSort _ s.orders).filter _
  have hmemFM : ∀ oi ∈ (((sortByKey (fun o => o.orderId) s.orders).filter
      (orderMatches s q)).flatMap (fun o =>
        (sortByKey (fun oi => oi.orderItemId) s.orderItems).filter
          (fun oi => oi.orderId = o.orderId))), oi ∈ s.orderItems := by
    intro oi hoi
    obtain ⟨o, _, hoif⟩ := List.mem_flatMap.mp hoi
    exact ((List.perm_insertionSort _ s.orderItems).mem_iff).mp
      (List.mem_filter.mp hoif).1
  have hkeyM : ∀ oi ∈ (((sortByKey (fun o => o.orderId) s.orders).filter
      (orderMatches s q)).flatMap (fun o =>
        (sortByKey (fun oi => oi.orderItemId) s.orderItems).filter
          (fun oi => oi.orderId = o.orderId))),
      (s.menuItems.find? (fun mi => mi.menuItemId = oi.menuItemId)).map
        (fun mi => mi.name) =
      some (((s.menuItems.find?
        (fun mi => mi.menuItemId = oi.menuItemId)).getD dummyMenu).name) := by
    intro oi hoi
    obtain ⟨mi, hmim, hmi⟩ := hFK oi (hmemFM oi hoi)
    rw [findMenu_of_FK s hMid oi mi hmim hmi]
    rfl
  have hinjM : ∀ a ∈ (((sortByKey (fun o => o.orderId) s.orders).filter
      (orderMatches s q)).flatMap (fun o =>
        (sortByKey (fun oi => oi.orderItemId) s.orderItems).filter
          (fun oi => oi.orderId = o.orderId))),
      ∀ b ∈ (((sortByKey (fun o => o.orderId) s.orders).filter
      (orderMatches s q)).flatMap (fun o =>
        (sortByKey (fun oi => oi.orderItemId) s.orderItems).filter
          (fun oi => oi.orderId = o.orderId))),
      (some (((s.menuItems.find?
          (fun mi => mi.menuItemId = a.menuItemId)).getD dummyMenu).name) :
        Option String) =
        some (((s.menuItems.find?
          (fun mi => mi.menuItemId = b.menuItemId)).getD dummyMenu).name) →
      ((((s.menuItems.find?
          (fun mi => mi.menuItemId = a.menuItemId)).getD dummyMenu).menuItemId,
        ((s.menuItems.find?
          (fun mi => mi.menuItemId = a.menuItemId)).getD dummyMenu).name) :
        Nat × String) =
        (((s.menuItems.find?
          (fun mi => mi.menuItemId = b.menuItemId)).getD dummyMenu).menuItemId,
        ((s.menuItems.find?
          (fun mi => mi.menuItemId = b.menuItemId)).getD dummyMenu).name) := by
    intro a ha b hb h
    obtain ⟨mia, hmiam, hmia⟩ := hFK a (hmemFM a ha)
    obtain ⟨mib, hmibm, hmib⟩ := hFK b (hmemFM b hb)
    rw [findMenu_of_FK s hMid a mia hmiam hmia,
      findMenu_of_FK s hMid b mib hmibm hmib] at h ⊢
    have hmiab : mia = mib := hMname mia hmiam mib hmibm (Option.some.inj h)
    rw [hmiab]
  unfold mongoTopItems sqlTopItems
  rw [mongoFilteredOrders_migrated, sqlTopItemJoinRows_collapse s q hMid hFK,
    sqlFilteredOrders_eq_filter s q hRid hRname, List.flatMap_map]
  simp only [orderDoc_items, orderItemDocsFor]
  rw [← List.map_flatMap (fun oi : OrderItemRow =>
      ({ menuItemId := some oi.menuItemId,
         name := (s.menuItems.find?
           (fun mi => mi.menuItemId = oi.menuItemId)).map (fun mi => mi.name),
         quantity := oi.quantity, unitPriceCents := oi.unitPriceCents } :
        OrderItemDoc))
    (fun o : OrderRow =>
      (sortByKey (fun oi => oi.orderItemId) s.orderItems).filter
        (fun oi => oi.orderId = o.orderId))
    ((sortByKey (fun o => o.orderId) s.orders).filter (orderMatches s q))]
  refine congrArg (fun l => List.take 5 l) ?_
  rw [groupAgg_map_transport (fun oi : OrderItemRow =>
      ({ menuItemId := some oi.menuItemId,
         name := (s.menuItems.find?
           (fun mi => mi.menuItemId = oi.menuItemId)).map (fun mi => mi.name),
         quantity := oi.quantity, unitPriceCents := oi.unitPriceCents } :
        OrderItemDoc))
    (fun i => i.name)
    (fun oi => ((((s.menuItems.find?
        (fun mi => mi.menuItemId = oi.menuItemId)).getD dummyMenu).menuItemId,
      ((s.menuItems.find?
        (fun mi => mi.menuItemId = oi.menuItemId)).getD dummyMenu).name) :
      Nat × String))
    (fun kv : Nat × String => some kv.2)
    (fun l => ((l.map (fun i => i.quantity)).sum,
      (l.map (fun i => i.quantity * i.unitPriceCents)).sum))
    (fun l => ((l.map (fun oi => oi.quantity)).sum,
      (l.map (fun oi => oi.quantity * oi.unitPriceCents)).sum))
    (((sortByKey (fun o => o.orderId) s.orders).filter
      (orderMatches s q)).flatMap (fun o =>
        (sortByKey (fun oi => oi.orderItemId) s.orderItems).filter
          (fun oi => oi.orderId = o.orderId)))
    hkeyM hinjM
    (fun sub _ => by
      simp only [List.map_map]
      rfl)]
  rw [groupAgg_map_transport (fun oi : OrderItemRow =>
      (oi, (s.menuItems.find?
        (fun mi => mi.menuItemId = oi.menuItemId)).getD dummyMenu))
    (fun r => (r.2.menuItemId, r.2.name))
    (fun oi => ((((s.menuItems.find?
        (fun mi => mi.menuItemId = oi.menuItemId)).getD dummyMenu).menuItemId,
      ((s.menuItems.find?
        (fun mi => mi.menuItemId = oi.menuItemId)).getD dummyMenu).name) :
      Nat × String))
    (fun x : Nat × String => x)
    (fun l => ((l.map (fun r => r.1.quantity)).sum,
      (l.map (fun r => r.1.quantity * r.1.unitPriceCents)).sum))
    (fun l => ((l.map (fun oi => oi.quantity)).sum,
      (l.map (fun oi => oi.quantity * oi.unitPriceCents)).sum))
    ((s.orders.filter (orderMatches s q)).flatMap (fun o =>
      s.orderItems.filter (fun oi => oi.orderId = o.orderId)))
    (fun a _ => rfl)
    (fun a _ b _ h => h)
    (fun sub _ => by
      simp only [List.map_map]
      rfl)]
  have hid4 : (fun kv : (Nat × String) × (Nat × Nat) =>
      ((fun x : Nat × String => x) kv.1, kv.2)) = id := funext (fun kv => rfl)
  rw [hid4, List.map_id, List.map_map]
  have hcomp : ((fun kv : Option String × (Nat × Nat) =>
      ({ itemName := kv.1, totalQuantity := kv.2.1,
         totalRevenueCents := kv.2.2 } : TopItemRow)) ∘
      (fun kv : (Nat × String) × (Nat × Nat) =>
        ((fun kv : Nat × String => some kv.2) kv.1, kv.2))) =
      (fun kv : (Nat × String) × (Nat × Nat) =>
        ({ itemName := some kv.1.2, totalQuantity := kv.2.1,
           totalRevenueCents := kv.2.2 } : TopItemRow)) :=
    funext (fun kv => rfl)
  rw [hcomp]
  apply sortBy_eq_of_perm topItemKey topItemKey_inj
  refine List.Perm.map _ ?_
  refine groupAgg_perm _ _ ?_ ?_
  · intro l1 l2 hp
    show ((l1.map (fun oi : OrderItemRow => oi.quantity)).sum,
        (l1.map (fun oi : OrderItemRow =>
          oi.quantity * oi.unitPriceCents)).sum) =
      ((l2.map (fun oi : OrderItemRow => oi.quantity)).sum,
        (l2.map (fun oi : OrderItemRow =>
          oi.quantity * oi.unitPriceCents)).sum)
    rw [(hp.map (fun oi : OrderItemRow => oi.quantity)).sum_eq,
      (hp.map (fun oi : OrderItemRow =>
        oi.quantity * oi.unitPriceCents)).sum_eq]
  · exact perm_flatMap _ _
      (fun o => (List.perm_insertionSort _ s.orderItems).filter _) hperm

/-- C2 (amended): the claim as frozen is false — the SQL report groups
top items by `(menu_item_id, name)` while the Mongo report groups by the
item name alone, and the relational schema does not make menu names
unique (see the counterexample).  Under the schema's actual uniqueness
constraints (restaurant PK, unique restaurant-name index, unique
payment.order_id, menu-item PK, order-item → menu-item FK) plus the
additional assumption that no two menu rows share a name, the SQL-mode
report and the document-mode report on the freshly migrated state with
the same filters are equal: same summary KPIs, and identical by-status,
by-day, by-payment-method and top-items breakdowns. -/
theorem claim2_reports_agree_of_unique_menu_names
    (s : SqlState) (m : MongoState) (t : Nat) (q : ReportQuery)
    (hRid : (s.restaurants.map (fun r => r.restaurantId)).Nodup)
    (hRname : (s.restaurants.map (fun r => r.name)).Nodup)
    (hPayOid : (s.payments.map (fun p => p.orderId)).Nodup)
    (hMid : (s.menuItems.map (fun mi => mi.menuItemId)).Nodup)
    (hFK : ∀ oi ∈ s.orderItems, ∃ mi ∈ s.menuItems,
      mi.menuItemId = oi.menuItemId)
    (hMname : ∀ m1 ∈ s.menuItems, ∀ m2 ∈ s.menuItems,
      m1.name = m2.name → m1 = m2) :
    sqlCustomerReport s q =
      mongoCustomerReport (migrateSqlToMongo m s t) q := by
  unfold sqlCustomerReport mongoCustomerReport
  rw [report_summary_eq s m t q hRid hRname hPayOid,
    report_byStatus_eq s m t q hRid hRname,
    report_byDay_eq s m t q hRid hRname,
    report_byMethod_eq s m t q hRid hRname hPayOid,
    report_topItems_eq s m t q hRid hRname hMid hFK hMname]

/-- Counterexample to C2 as frozen: `cxSql` satisfies every uniqueness
constraint the relational schema actually imposes (conjuncts one to
five), yet the SQL report and the document report computed on the
untouched migrated state with the same filters differ — the SQL
topItems keeps the two same-named menu rows as separate groups while
the Mongo pipeline merges them into one. -/
theorem claim2_counterexample :
    ((cxSql.restaurants.map (fun r => r.restaurantId)).Nodup ∧
      (cxSql.restaurants.map (fun r => r.name)).Nodup ∧
      (cxSql.payments.map (fun p => p.orderId)).Nodup ∧
      (cxSql.menuItems.map (fun mi => mi.menuItemId)).Nodup ∧
      ∀ oi ∈ cxSql.orderItems, ∃ mi ∈ cxSql.menuItems,
        mi.menuItemId = oi.menuItemId) ∧
    sqlCustomerReport cxSql cxQuery ≠
      mongoCustomerReport (migrateSqlToMongo cxMongoInit cxSql 0) cxQuery := by
  refine ⟨by decide, fun h => ?_⟩
  have h2 : (sqlCustomerReport cxSql cxQuery).topItems =
      (mongoCustomerReport (migrateSqlToMongo cxMongoInit cxSql 0)
        cxQuery).topItems := congrArg CustomerReport.topItems h
  exact absurd h2 (by decide)

/-! ## Witnesses -/

/-- Witness for C1: the spec's own rounding example — an order of 3 items
at $0.10 totals exactly $0.30 (30 cents) in both storage modes. -/
theorem claim1_witness :
    sqlPlaceOrder exSql "customer1@example.com" "Plachutta"
        [{ menuItemId := some 3, menuItemName := none, quantity := 3 }] 100 =
      Except.ok (exSqlPlaced, exPlacedOut) ∧
    mongoPlaceOrder exMongo "customer1@example.com" "Plachutta"
        [{ menuItemId := none, name := some "Espresso Shot", quantity := 3,
           unitPriceCents := some 10 }] 100 =
      Except.ok (exMongoPlaced, exMongoPlacedDoc) ∧
    exPlacedOut.totalAmountCents = 30 ∧
    exMongoPlacedDoc.totalAmountCents = 30 ∧
    exPlacedOut.totalAmountCents =
      (exPlacedOut.orderItems.map (fun i => i.quantity * i.unitPriceCents)).sum ∧
    exMongoPlacedDoc.totalAmountCents =
      (exMongoPlacedDoc.orderItems.map
        (fun i => i.quantity * i.unitPriceCents)).sum := by
  have hrun1 : sqlPlaceOrder exSql "customer1@example.com" "Plachutta"
      [{ menuItemId := some 3, menuItemName := none, quantity := 3 }] 100 =
      Except.ok (exSqlPlaced, exPlacedOut) := by rfl
  have hrun2 : mongoPlaceOrder exMongo "customer1@example.com" "Plachutta"
      [{ menuItemId := none, name := some "Espresso Shot", quantity := 3,
         unitPriceCents := some 10 }] 100 =
      Except.ok (exMongoPlaced, exMongoPlacedDoc) := by rfl
  have h := claim1_totalAmount_exact_cent_sum exSql "customer1@example.com"
    "Plachutta" [{ menuItemId := some 3, menuItemName := none, quantity := 3 }]
    100 exMongo "customer1@example.com" "Plachutta"
    [{ menuItemId := none, name := some "Espresso Shot", quantity := 3,
       unitPriceCents := some 10 }] 100
  exact ⟨hrun1, hrun2, by decide, by decide, (h.1 _ _ hrun1).1, (h.2 _ _ hrun2).1⟩

/-- Witness for C2 (amended): the example state's menu names are
pairwise distinct and all schema constraints hold, so the two report
variants agree on its migrated image. -/
theorem claim2_witness :
    sqlCustomerReport exSql
        { restaurantName := "Plachutta", fromDate := none, toDate := none } =
      mongoCustomerReport (migrateSqlToMongo exMongo exSql 42)
        { restaurantName := "Plachutta", fromDate := none, toDate := none } :=
  claim2_reports_agree_of_unique_menu_names exSql exMongo 42
    { restaurantName := "Plachutta", fromDate := none, toDate := none }
    (by decide) (by decide) (by decide) (by decide) (by decide) (by decide)

/-- Witness for C5: paying order 1 (already paid) conflicts; paying the
absent order 99 is a 404. -/
theorem claim5_witness :
    sqlPay exSql 1 "card" 50 =
      Except.error (ApiErr.conflict "order already paid") ∧
    (ApiErr.conflict "order already paid").statusCode = 409 ∧
    sqlPay exSql 99 "card" 50 =
      Except.error (ApiErr.notFound "order not found") :=
  claim5_sqlPay_conflict_on_paid_notFound_on_absent exSql 1 99 "card" 50
    { paymentId := 1, orderId := 1, amountCents := 1900, method := "card",
      paidAt := some 5 } 5
    (by decide) (by decide) (by decide) (by decide) (by decide)

/-- Witness for C6: a second document-mode Pay on the already-paid order
1 succeeds and keeps the original paidAt (5) and method ("card"). -/
theorem claim6_witness :
    ∃ m' out, mongoPay exMongo 1 "cash" 50 = Except.ok (m', out) ∧
      (∃ p', out.payment = some p' ∧ p'.paidAt = some 5 ∧
        p'.method = exPaymentDoc.method) ∧
      out.status =
        (if exOrderDoc.status = "created" then "preparing"
         else exOrderDoc.status) :=
  claim6_mongoPay_idempotent_on_paid exMongo 1 "cash" 50 exOrderDoc
    exPaymentDoc 5 (by decide) (by decide) (by decide) (by decide)
    (by decide) (by decide)

/-- Witness for C9: the same document-mode Pay overwrites the payment
amount with the order's total and leaves every other order field alone. -/
theorem claim9_witness :
    ∃ m' out d', mongoPay exMongo 1 "cash" 50 = Except.ok (m', out) ∧
      m'.restaurants = exMongo.restaurants ∧ m'.people = exMongo.people ∧
      m'.marker = exMongo.marker ∧
      m'.orders = exMongo.orders.map (fun x =>
        if x.orderId = 1 then mongoPayStep "cash" 50 x else x) ∧
      m'.orders.find? (fun x => x.orderId = 1) = some d' ∧
      (∃ p', d'.payment = some p' ∧
        p'.amountCents = exOrderDoc.totalAmountCents ∧
        (∀ x, (exOrderDoc.payment.bind (fun p => p.paymentId)) = some x →
          p'.paymentId = some x) ∧
        (∀ p0, exOrderDoc.payment = some p0 → p'.method = p0.method) ∧
        (∀ t, (exOrderDoc.payment.bind (fun p => p.paidAt)) = some t →
          p'.paidAt = some t)) ∧
      d'.orderId = exOrderDoc.orderId ∧ d'.createdAt = exOrderDoc.createdAt ∧
      d'.totalAmountCents = exOrderDoc.totalAmountCents ∧
      d'.restaurant = exOrderDoc.restaurant ∧
      d'.customer = exOrderDoc.customer ∧
      d'.orderItems = exOrderDoc.orderItems ∧
      d'.delivery = exOrderDoc.delivery :=
  claim9_mongoPay_amount_overwrite_frame exMongo 1 "cash" 50 exOrderDoc
    (by decide) (by decide) (by decide) (by decide)

/-- Witness for C4: re-assigning order 1's delivery (assigned at time 7)
to the same rider with a new status keeps assignedAt = 7 in both modes. -/
theorem claim4_witness :
    (∃ s' out, sqlAssignDelivery exSql "rider1@example.com" 1 "delivered" 50 =
        Except.ok (s', out) ∧
      s'.restaurants = exSql.restaurants ∧ s'.persons = exSql.persons ∧
      s'.customers = exSql.customers ∧ s'.riders = exSql.riders ∧
      s'.menuItems = exSql.menuItems ∧ s'.orders = exSql.orders ∧
      s'.orderItems = exSql.orderItems ∧ s'.payments = exSql.payments ∧
      s'.deliveries = exSql.deliveries.map (fun dd =>
        if dd.orderId = 1 then
          { dd with riderId := some (2 : Nat), deliveryStatus := "delivered" }
        else dd) ∧
      out.assignedAt = some 7 ∧ out.deliveryStatus = "delivered") ∧
    (∃ m', mongoAssignDelivery exMongo "rider1@example.com" 1 "picked_up" 60 =
        Except.ok m' ∧
      m'.restaurants = exMongo.restaurants ∧ m'.people = exMongo.people ∧
      m'.marker = exMongo.marker ∧
      m'.orders = exMongo.orders.map (fun x =>
        if x.orderId = 1 then
          { x with delivery := some ({ exDeliveryDoc with
              deliveryStatus := "picked_up",
              rider := some (riderSnapOf exRiderDoc) }) }
        else x)) :=
  claim4_assignedAt_set_once exSql "rider1@example.com" 1 "delivered" 50
    { personId := 2, name := "Rider 1", email := "rider1@example.com",
      phone := none }
    { deliveryId := 1, orderId := 1, riderId := some 2, assignedAt := some 7,
      deliveryStatus := "assigned" } 7
    exMongo "rider1@example.com" 1 "picked_up" 60 exRiderDoc exOrderDoc
    exDeliveryDoc 7
    (by decide) (by decide) (by decide) (by decide) (by decide) (by decide)
    (by decide) (by decide) (by decide) (by decide) (by decide) (by decide)
    (by decide) (by decide) (by decide)

/-- Witness for C8: person 3 is both customer and rider; after migrating
the example state their document has type "rider" with both
sub-documents, and a document-mode order for their email is a 404. -/
theorem claim8_witness :
    (∃ doc ∈ (migrateSqlToMongo exMongo exSql 9).people,
      doc.personId = 3 ∧ doc.type = "rider" ∧
      doc.customer.isSome ∧ doc.rider.isSome) ∧
    mongoPlaceOrder (migrateSqlToMongo exMongo exSql 9) "dual@example.com"
        "Plachutta"
        [{ menuItemId := none, name := some "Tafelspitz", quantity := 1,
           unitPriceCents := some 950 }] 11 =
      Except.error (ApiErr.notFound "customer not found") :=
  claim8_dual_role_person_becomes_rider exSql exMongo 9 11
    { personId := 3, name := "Dual Role", email := "dual@example.com",
      phone := none }
    "Plachutta"
    [{ menuItemId := none, name := some "Tafelspitz", quantity := 1,
       unitPriceCents := some 950 }]
    (by decide) (by decide) (by decide) (by decide) (by decide) (by decide)
    (by decide)

/-- Witness for C10: menu item 2 exists but belongs to "Cafe Central";
ordering it at "Plachutta" by id fails with the scoped-lookup 404. -/
theorem claim10_witness :
    sqlPlaceOrder exSql "customer1@example.com" "Plachutta"
        [{ menuItemId := some 2, menuItemName := none, quantity := 1 }] 50 =
      Except.error (ApiErr.notFound
        ("menu item not found for items[" ++ toString (List.length
          ([] : List PlaceItemReq)) ++ "]")) ∧
    (ApiErr.notFound
      ("menu item not found for items[" ++ toString (List.length
        ([] : List PlaceItemReq)) ++ "]")).statusCode = 404 :=
  claim10_menuItemId_scoped_to_restaurant exSql "customer1@example.com"
    "Plachutta" [] []
    { menuItemId := some 2, menuItemName := none, quantity := 1 } 2 50
    { personId := 1, name := "Customer 1", email := "customer1@example.com",
      phone := none }
    { restaurantId := 1, name := "Plachutta", address := "addr1" } []
    (by decide) (by decide) (by decide) (by decide) (by rfl) (by decide)
    (by decide) (by decide) (by decide)

end FoodDemo
